import Mathlib

/-
Verification development for the BattlePong repository.

Each Python module is shallowly embedded as Lean definitions:
  - pong/settings.py   : dynamically typed settings sections + patch
  - pong/events.py     : event records and the EventBus
  - pong/scenes/base.py: SceneManager (set_scene / go_back)
  - pong/entities.py   : Paddle / Ball physics
  - pong/systems.py    : ChaosSystem
  - pong/game.py       : PongGame state, collision resolution, update loop

Python floats are modelled as real numbers where trigonometry is involved
(entity physics) and as rationals elsewhere; in-place mutation is modelled by
explicit state passing; a raised exception is modelled by a result carrying
the mutated-so-far state together with an error marker, matching the fact
that Python exceptions do not roll back prior in-place mutations.
-/

namespace Pong

/-- A dynamically-typed Python attribute value (int, float, str, bool or None),
as stored on the settings dataclasses from pong/settings.py.  Floats that flow
through the settings are rational in every reachable program state, so the
float payload is a rational number. -/
inductive Value where
  | intV (n : ℤ)
  | floatV (q : ℚ)
  | strV (s : String)
  | boolV (b : Bool)
  | noneV
deriving DecidableEq

/-- Numeric read of an attribute value (Python arithmetic on int/float). -/
def Value.toRat : Value → ℚ
  | .intV n => (n : ℚ)
  | .floatV q => q
  | _ => 0

/-- Integer read of an attribute value (used for fields that hold ints). -/
def Value.toInt : Value → ℤ
  | .intV n => n
  | _ => 0

/-! ## pong/settings.py -/

/-- DisplaySettings dataclass. -/
structure DisplaySettings where
  width : Value
  height : Value
  title : Value
  fps : Value
deriving DecidableEq

def DisplaySettings.default : DisplaySettings :=
  ⟨.intV 960, .intV 540, .strV "Battle Pong", .intV 60⟩

/-- PaddleSettings dataclass. -/
structure PaddleSettings where
  width : Value
  height : Value
  speed : Value
  margin_x : Value
deriving DecidableEq

def PaddleSettings.default : PaddleSettings :=
  ⟨.intV 16, .intV 110, .floatV 420, .intV 32⟩

/-- BallSettings dataclass. -/
structure BallSettings where
  size : Value
  speed : Value
  max_bounce_angle_deg : Value
  count_on_reset : Value
deriving DecidableEq

def BallSettings.default : BallSettings :=
  ⟨.intV 16, .floatV 300, .floatV 65, .intV 1⟩

/-- SpriteSettings dataclass. -/
structure SpriteSettings where
  ball_image : Value
  paddle_image : Value
  background_image : Value
  ball_rotation_speed : Value
  tile_background : Value
deriving DecidableEq

def SpriteSettings.default : SpriteSettings :=
  ⟨.noneV, .noneV, .noneV, .floatV 180, .boolV false⟩

/-- AudioSettings dataclass. -/
structure AudioSettings where
  master_volume : Value
  sfx_volume : Value
  screen_shake : Value
deriving DecidableEq

def AudioSettings.default : AudioSettings :=
  ⟨.floatV 1, .floatV 1, .floatV (1/2)⟩

/-- TrailSettings dataclass. -/
structure TrailSettings where
  effect : Value
deriving DecidableEq

def TrailSettings.default : TrailSettings := ⟨.strV "trail_none"⟩

/-- MatchSettings dataclass. -/
structure MatchSettings where
  win_score : Value
deriving DecidableEq

def MatchSettings.default : MatchSettings := ⟨.intV 10⟩

/-- RuntimeSettings dataclass; the section named match in the source is called
matchCfg here because match is a reserved word in Lean. -/
structure RuntimeSettings where
  display : DisplaySettings
  paddle : PaddleSettings
  ball : BallSettings
  sprites : SpriteSettings
  audio : AudioSettings
  trail : TrailSettings
  matchCfg : MatchSettings
deriving DecidableEq

def RuntimeSettings.default : RuntimeSettings :=
  ⟨DisplaySettings.default, PaddleSettings.default, BallSettings.default,
   SpriteSettings.default, AudioSettings.default, TrailSettings.default,
   MatchSettings.default⟩

/-- The section names present on a RuntimeSettings instance (its dataclass
fields), in declaration order. -/
def sectionNames : List String :=
  ["display", "paddle", "ball", "sprites", "audio", "trail", "match"]

def DisplaySettings.hasField (k : String) : Bool :=
  k = "width" ∨ k = "height" ∨ k = "title" ∨ k = "fps"

def DisplaySettings.setField (s : DisplaySettings) (k : String) (v : Value) : DisplaySettings :=
  if k = "width" then { s with width := v }
  else if k = "height" then { s with height := v }
  else if k = "title" then { s with title := v }
  else if k = "fps" then { s with fps := v }
  else s

def PaddleSettings.hasField (k : String) : Bool :=
  k = "width" ∨ k = "height" ∨ k = "speed" ∨ k = "margin_x"

def PaddleSettings.setField (s : PaddleSettings) (k : String) (v : Value) : PaddleSettings :=
  if k = "width" then { s with width := v }
  else if k = "height" then { s with height := v }
  else if k = "speed" then { s with speed := v }
  else if k = "margin_x" then { s with margin_x := v }
  else s

def BallSettings.hasField (k : String) : Bool :=
  k = "size" ∨ k = "speed" ∨ k = "max_bounce_angle_deg" ∨ k = "count_on_reset"

def BallSettings.setField (s : BallSettings) (k : String) (v : Value) : BallSettings :=
  if k = "size" then { s with size := v }
  else if k = "speed" then { s with speed := v }
  else if k = "max_bounce_angle_deg" then { s with max_bounce_angle_deg := v }
  else if k = "count_on_reset" then { s with count_on_reset := v }
  else s

def SpriteSettings.hasField (k : String) : Bool :=
  k = "ball_image" ∨ k = "paddle_image" ∨ k = "background_image" ∨
    k = "ball_rotation_speed" ∨ k = "tile_background"

def SpriteSettings.setField (s : SpriteSettings) (k : String) (v : Value) : SpriteSettings :=
  if k = "ball_image" then { s with ball_image := v }
  else if k = "paddle_image" then { s with paddle_image := v }
  else if k = "background_image" then { s with background_image := v }
  else if k = "ball_rotation_speed" then { s with ball_rotation_speed := v }
  else if k = "tile_background" then { s with tile_background := v }
  else s

def AudioSettings.hasField (k : String) : Bool :=
  k = "master_volume" ∨ k = "sfx_volume" ∨ k = "screen_shake"

def AudioSettings.setField (s : AudioSettings) (k : String) (v : Value) : AudioSettings :=
  if k = "master_volume" then { s with master_volume := v }
  else if k = "sfx_volume" then { s with sfx_volume := v }
  else if k = "screen_shake" then { s with screen_shake := v }
  else s

def TrailSettings.hasField (k : String) : Bool := k = "effect"

def TrailSettings.setField (s : TrailSettings) (k : String) (v : Value) : TrailSettings :=
  if k = "effect" then { s with effect := v } else s

def MatchSettings.hasField (k : String) : Bool := k = "win_score"

def MatchSettings.setField (s : MatchSettings) (k : String) (v : Value) : MatchSettings :=
  if k = "win_score" then { s with win_score := v } else s

/-- hasattr(target, key) where target is the section named sec. -/
def RuntimeSettings.hasField (sec k : String) : Bool :=
  if sec = "display" then DisplaySettings.hasField k
  else if sec = "paddle" then PaddleSettings.hasField k
  else if sec = "ball" then BallSettings.hasField k
  else if sec = "sprites" then SpriteSettings.hasField k
  else if sec = "audio" then AudioSettings.hasField k
  else if sec = "trail" then TrailSettings.hasField k
  else if sec = "match" then MatchSettings.hasField k
  else false

/-- setattr(target, key, value) where target is the section named sec. -/
def RuntimeSettings.setField (s : RuntimeSettings) (sec k : String) (v : Value) :
    RuntimeSettings :=
  if sec = "display" then { s with display := s.display.setField k v }
  else if sec = "paddle" then { s with paddle := s.paddle.setField k v }
  else if sec = "ball" then { s with ball := s.ball.setField k v }
  else if sec = "sprites" then { s with sprites := s.sprites.setField k v }
  else if sec = "audio" then { s with audio := s.audio.setField k v }
  else if sec = "trail" then { s with trail := s.trail.setField k v }
  else if sec = "match" then { s with matchCfg := s.matchCfg.setField k v }
  else s

/-- Result of RuntimeSettings.patch.  Because the Python method mutates the
settings object in place and raises on the first unknown field, the result
carries the settings as they stand when the call returns or raises, the
applied mapping built so far, and the error, if any. -/
structure PatchResult where
  settings : RuntimeSettings
  applied : List (String × Value)
  error : Option String
deriving DecidableEq

/-- The `for key, value in values.items()` loop body of patch. -/
def patchGo (sec : String) : RuntimeSettings → List (String × Value) →
    List (String × Value) → PatchResult
  | cur, [], acc => ⟨cur, acc, Option.none⟩
  | cur, (k, v) :: rest, acc =>
    if RuntimeSettings.hasField sec k then
      patchGo sec (cur.setField sec k v) rest (acc ++ [(k, v)])
    else
      ⟨cur, acc, Option.some ("Unknown field " ++ k ++ " for section " ++ sec)⟩

/-- RuntimeSettings.patch(section, **values).  values is the keyword mapping
in iteration (insertion) order. -/
def RuntimeSettings.patch (s : RuntimeSettings) (sec : String)
    (values : List (String × Value)) : PatchResult :=
  if sectionNames.contains sec then patchGo sec s values []
  else ⟨s, [], Option.some ("Unknown settings section " ++ sec)⟩

/-- Applying one assignment of the patch loop (used to state what a sequence
of successful setattr calls does). -/
def patchStep (sec : String) (cur : RuntimeSettings) (kv : String × Value) :
    RuntimeSettings :=
  cur.setField sec kv.1 kv.2

/-! ## pong/events.py -/

/-- The discriminating tag of an event (its Python class). -/
inductive EventKind where
  | ballHitPaddle
  | pointScored
  | roundReset
  | ballSpawned
  | ballRemoved
  | settingsChangeRequested
  | settingsChanged
  | spawnBallRequested
deriving DecidableEq

/-- Modelled from the spec: src/pong/events.py defines only the
BallHitPaddle, PointScored and RoundReset records, yet pong/game.py and
pong/systems.py import five further event classes from pong.events that are
missing from the sources (BallSpawned, BallRemoved, SettingsChangeRequested,
SettingsChanged, SpawnBallRequested).  Those five variants are modelled from
the spec sentence listing the event variants with their fields; the first
three follow src/pong/events.py.  All are frozen dataclasses, i.e. immutable
tagged records. -/
inductive GameEvent where
  | ballHitPaddle (paddle_id : String)
  | pointScored (scorer_id : String)
  | roundReset
  | ballSpawned (ball_id : String)
  | ballRemoved (ball_id : String)
  | settingsChangeRequested (sec : String) (values : List (String × Value))
  | settingsChanged (sec : String) (values : List (String × Value))
  | spawnBallRequested (count : ℤ) (speed : Option ℚ) (size : Option ℤ)
deriving DecidableEq

/-- type(event): the class tag an event carries. -/
def GameEvent.kind : GameEvent → EventKind
  | .ballHitPaddle _ => .ballHitPaddle
  | .pointScored _ => .pointScored
  | .roundReset => .roundReset
  | .ballSpawned _ => .ballSpawned
  | .ballRemoved _ => .ballRemoved
  | .settingsChangeRequested _ _ => .settingsChangeRequested
  | .settingsChanged _ _ => .settingsChanged
  | .spawnBallRequested _ _ _ => .spawnBallRequested

/-- event.paddle_id attribute. -/
def GameEvent.paddleIdOf : GameEvent → Option String
  | .ballHitPaddle p => Option.some p
  | _ => Option.none

/-- event.scorer_id attribute. -/
def GameEvent.scorerIdOf : GameEvent → Option String
  | .pointScored p => Option.some p
  | _ => Option.none

/-- event.ball_id attribute. -/
def GameEvent.ballIdOf : GameEvent → Option String
  | .ballSpawned b => Option.some b
  | .ballRemoved b => Option.some b
  | _ => Option.none

/-- event.section attribute. -/
def GameEvent.sectionOf : GameEvent → Option String
  | .settingsChangeRequested s _ => Option.some s
  | .settingsChanged s _ => Option.some s
  | _ => Option.none

/-- event.values attribute. -/
def GameEvent.valuesOf : GameEvent → Option (List (String × Value))
  | .settingsChangeRequested _ v => Option.some v
  | .settingsChanged _ v => Option.some v
  | _ => Option.none

/-- event.count attribute. -/
def GameEvent.countOf : GameEvent → Option ℤ
  | .spawnBallRequested c _ _ => Option.some c
  | _ => Option.none

/-- event.speed attribute. -/
def GameEvent.speedArgOf : GameEvent → Option (Option ℚ)
  | .spawnBallRequested _ sp _ => Option.some sp
  | _ => Option.none

/-- event.size attribute. -/
def GameEvent.sizeArgOf : GameEvent → Option (Option ℤ)
  | .spawnBallRequested _ _ sz => Option.some sz
  | _ => Option.none

/-- Attribute assignment on a frozen dataclass instance: dataclasses generated
with frozen=True raise FrozenInstanceError from __setattr__, leaving the
record unchanged. -/
def GameEvent.setAttr (_e : GameEvent) (_k : String) (_v : Value) :
    Except String GameEvent :=
  Except.error "FrozenInstanceError"

/-- EventBus._listeners: a defaultdict(list) from event class to the list of
listeners in subscription order.  Listeners are identified by numeric ids. -/
structure EventBus where
  listeners : EventKind → List ℕ

/-- EventBus.__init__. -/
def EventBus.empty : EventBus := ⟨fun _ => []⟩

/-- EventBus.subscribe: append the listener to the list for that event class. -/
def EventBus.subscribe (b : EventBus) (k : EventKind) (l : ℕ) : EventBus :=
  ⟨fun k2 => if k2 = k then b.listeners k2 ++ [l] else b.listeners k2⟩

/-- EventBus.publish: the listeners invoked, in invocation order — exactly
the list registered under type(event). -/
def EventBus.publish (b : EventBus) (e : GameEvent) : List ℕ :=
  b.listeners e.kind

/-- A bus built by a sequence of subscribe calls starting from a fresh bus. -/
def EventBus.ofSubs (subs : List (EventKind × ℕ)) : EventBus :=
  subs.foldl (fun b s => b.subscribe s.1 s.2) EventBus.empty

/-! ## pong/scenes/base.py -/

/-- A lifecycle hook firing, recorded in order. -/
inductive Hook where
  | enterH (name : String)
  | exitH (name : String)
deriving DecidableEq

/-- SceneManager state: the registry keys, the current scene name and the
history stack (top of stack at the end of the list). -/
structure SceneManager where
  scenes : List String
  current : Option String
  history : List String
deriving DecidableEq

/-- Result of a SceneManager operation: the state when the call returns or
raises, the hooks fired in order, and the missing registry key when a
`self.scenes[...]` lookup raised KeyError. -/
structure SceneStep where
  state : SceneManager
  hooks : List Hook
  keyError : Option String
deriving DecidableEq

/-- SceneManager.set_scene.  `if self.current:` is Python truthiness, so a
current of None or of the empty string skips the exit/push branch.  The
assignment `self.current = name` happens before the `self.scenes[name]`
lookup, so on an unknown name the error is raised with current already
mutated. -/
def SceneManager.setScene (m : SceneManager) (name : String) : SceneStep :=
  if m.current = Option.some name then ⟨m, [], Option.none⟩
  else
    match m.current with
    | Option.some c =>
      if c = "" then
        let m2 : SceneManager := ⟨m.scenes, Option.some name, m.history⟩
        if m.scenes.contains name then ⟨m2, [Hook.enterH name], Option.none⟩
        else ⟨m2, [], Option.some name⟩
      else if m.scenes.contains c then
        let m2 : SceneManager := ⟨m.scenes, Option.some name, m.history ++ [c]⟩
        if m.scenes.contains name then ⟨m2, [Hook.exitH c, Hook.enterH name], Option.none⟩
        else ⟨m2, [Hook.exitH c], Option.some name⟩
      else ⟨m, [], Option.some c⟩
    | Option.none =>
      let m2 : SceneManager := ⟨m.scenes, Option.some name, m.history⟩
      if m.scenes.contains name then ⟨m2, [Hook.enterH name], Option.none⟩
      else ⟨m2, [], Option.some name⟩

/-- SceneManager.go_back.  The pop happens before the exit hook, and
`if self.current:` is again Python truthiness. -/
def SceneManager.goBack (m : SceneManager) : SceneStep :=
  match m.history.getLast? with
  | Option.none => ⟨m, [], Option.none⟩
  | Option.some prev =>
    let hist := m.history.dropLast
    match m.current with
    | Option.some c =>
      if c = "" then
        let m2 : SceneManager := ⟨m.scenes, Option.some prev, hist⟩
        if m.scenes.contains prev then ⟨m2, [Hook.enterH prev], Option.none⟩
        else ⟨m2, [], Option.some prev⟩
      else if m.scenes.contains c then
        let m2 : SceneManager := ⟨m.scenes, Option.some prev, hist⟩
        if m.scenes.contains prev then ⟨m2, [Hook.exitH c, Hook.enterH prev], Option.none⟩
        else ⟨m2, [Hook.exitH c], Option.some prev⟩
      else ⟨⟨m.scenes, m.current, hist⟩, [], Option.some c⟩
    | Option.none =>
      let m2 : SceneManager := ⟨m.scenes, Option.some prev, hist⟩
      if m.scenes.contains prev then ⟨m2, [Hook.enterH prev], Option.none⟩
      else ⟨m2, [], Option.some prev⟩

/-! ## pong/entities.py -/

/-- pygame key codes used by the game. -/
def K_w : ℤ := 119

def K_s : ℤ := 115

def K_UP : ℤ := 1073741906

def K_DOWN : ℤ := 1073741905

def K_SPACE : ℤ := 32

def K_r : ℤ := 114

/-- A keyboard snapshot (pygame.key.get_pressed or the bot key object),
read as a predicate on key codes. -/
def Keys := ℤ → Bool

/-- Paddle dataclass.  The settings field is the shared RuntimeSettings
object; it is passed explicitly to the methods here. -/
structure Paddle where
  paddle_id : String
  x : ℝ
  y : ℝ
  up_key : ℤ
  down_key : ℤ
  color : ℤ × ℤ × ℤ
  speed_multiplier : ℚ

/-- Paddle.update: move by the pressed direction, then clamp y into
[0, display.height - paddle.height]. -/
noncomputable def Paddle.update (p : Paddle) (s : RuntimeSettings) (dt : ℝ) (keys : Keys) : Paddle :=
  let direction : ℤ := (if keys p.up_key then -1 else 0) + (if keys p.down_key then 1 else 0)
  let y1 : ℝ := p.y + (direction : ℝ) * ((s.paddle.speed.toRat : ℝ)) *
    ((p.speed_multiplier : ℚ) : ℝ) * dt
  { p with y := max 0 (min (((s.display.height.toRat : ℝ)) - ((s.paddle.height.toRat : ℝ))) y1) }

/-- Ball dataclass (settings again passed explicitly to the methods). -/
structure Ball where
  ball_id : String
  x : ℝ
  y : ℝ
  velocity_x : ℝ
  velocity_y : ℝ
  color : ℤ × ℤ × ℤ
  rotation_angle : ℝ

/-- Ball.update: advance the position by velocity * dt. -/
noncomputable def Ball.update (b : Ball) (dt : ℝ) : Ball :=
  { b with x := b.x + b.velocity_x * dt, y := b.y + b.velocity_y * dt }

/-- Ball.bounce_vertical. -/
noncomputable def Ball.bounceVertical (b : Ball) : Ball :=
  { b with velocity_y := b.velocity_y * (-1) }

/-- Ball.bounce_from_paddle: angle from the hit offset, magnitude preserved
(math.hypot), horizontal sign flipped, and the ball repositioned flush
against the outer paddle edge on the departing side. -/
noncomputable def Ball.bounceFromPaddle (b : Ball) (p : Paddle) (s : RuntimeSettings) : Ball :=
  let ph : ℝ := (s.paddle.height.toRat : ℝ)
  let pw : ℝ := (s.paddle.width.toRat : ℝ)
  let bsize : ℝ := (s.ball.size.toRat : ℝ)
  let center_ball := b.y + bsize / 2
  let center_paddle := p.y + ph / 2
  let relative_intersect := center_ball - center_paddle
  let normalized := max (-1 : ℝ) (min 1 (relative_intersect / (ph / 2)))
  let bounce_angle := (s.ball.max_bounce_angle_deg.toRat : ℝ) * Real.pi / 180 * normalized
  let speed := Real.sqrt (b.velocity_x ^ 2 + b.velocity_y ^ 2)
  let new_speed_x := |speed * Real.cos bounce_angle|
  let new_speed_y := speed * Real.sin bounce_angle
  let vx := if b.velocity_x < 0 then new_speed_x else -new_speed_x
  let x2 := if vx > 0 then p.x + pw else p.x - bsize
  { b with velocity_x := vx, velocity_y := new_speed_y, x := x2 }

/-! ## Randomness

The Python random module is modelled as a stream of rational draws in [0, 1),
consumed one draw per random call in program order. -/

/-- The random-number source: an infinite stream of draws plus a cursor. -/
structure Rng where
  seq : ℕ → ℚ
  idx : ℕ

/-- Consume one raw draw in [0, 1). -/
def Rng.next (r : Rng) : ℚ × Rng := (r.seq r.idx, ⟨r.seq, r.idx + 1⟩)

/-- random.uniform(a, b). -/
def Rng.uniform (r : Rng) (a b : ℚ) : ℚ × Rng :=
  let (u, r2) := r.next
  (a + (b - a) * u, r2)

/-- Python int() on a rational: truncation toward zero. -/
def ratTrunc (q : ℚ) : ℤ := Int.tdiv q.num (q.den : ℤ)

/-- random.choice([-1, 1]). -/
def Rng.choicePM (r : Rng) : ℤ × Rng :=
  let (u, r2) := r.next
  (if u < 1/2 then -1 else 1, r2)

/-- random.randint(a, b). -/
def Rng.randint (r : Rng) (a b : ℤ) : ℤ × Rng :=
  let (u, r2) := r.next
  (a + ratTrunc (u * ((b : ℚ) - (a : ℚ) + 1)), r2)

/-- random.random(). -/
def Rng.rand (r : Rng) : ℚ × Rng := r.next

/-- Python int() on a float: truncation toward zero. -/
noncomputable def pyInt (x : ℝ) : ℤ := if x < 0 then -⌊-x⌋ else ⌊x⌋

/-- Python float % m for a positive modulus m (sign follows the divisor). -/
noncomputable def pyFmod (x m : ℝ) : ℝ := x - m * ⌊x / m⌋

/-! ## pong/particles.py -/

/-- Particle dataclass. -/
structure Particle where
  x : ℝ
  y : ℝ
  vx : ℝ
  vy : ℝ
  life : ℚ
  size : ℚ
  color : ℤ × ℤ × ℤ

/-- Particle.update. -/
noncomputable def Particle.update (p : Particle) (dt : ℚ) : Particle :=
  { p with
      x := p.x + p.vx * (dt : ℝ),
      y := p.y + p.vy * (dt : ℝ),
      life := p.life - dt,
      vy := p.vy + 60 * (dt : ℝ) }

/-- ParticleSystem.update: age every particle, drop the dead ones. -/
noncomputable def particlesUpdate (ps : List Particle) (dt : ℚ) : List Particle :=
  (ps.map (fun p => p.update dt)).filter (fun p => decide (0 < p.life))

/-- One iteration of ParticleSystem.spawn_burst: four uniform draws (speed,
angle, life, size); the velocity comes from rotating the unit x vector by
the drawn angle in degrees. -/
noncomputable def spawnBurstOne (x y : ℝ) (color : ℤ × ℤ × ℤ) (rng : Rng) :
    Particle × Rng :=
  let (speed, r1) := rng.uniform 80 240
  let (angle, r2) := r1.uniform 0 360
  let vx : ℝ := (speed : ℝ) * Real.cos ((angle : ℝ) * Real.pi / 180)
  let vy : ℝ := (speed : ℝ) * Real.sin ((angle : ℝ) * Real.pi / 180)
  let (life, r3) := r2.uniform (4/10) (9/10)
  let (psize, r4) := r3.uniform 3 6
  (⟨x, y, vx, vy, life, psize, color⟩, r4)

/-- ParticleSystem.spawn_burst appending amount particles. -/
noncomputable def spawnBurst (x y : ℝ) (color : ℤ × ℤ × ℤ) :
    ℕ → List Particle → Rng → List Particle × Rng
  | 0, ps, rng => (ps, rng)
  | Nat.succ n, ps, rng =>
    let (p, r2) := spawnBurstOne x y color rng
    spawnBurst x y color n (ps ++ [p]) r2

/-! ## pong/systems.py -/

/-- ChaosSystem state (bus and settings are passed to update explicitly). -/
structure ChaosSystem where
  interval : ℚ
  elapsed : ℚ
  enabled : Bool
deriving DecidableEq

/-- ChaosSystem.__init__ default. -/
def ChaosSystem.init : ChaosSystem := ⟨7, 0, true⟩

/-- ChaosSystem.update: on reaching the interval, publish one
SettingsChangeRequested for the ball section (jittered speed; jittered size
clamped to [8, 32] and truncated to int) followed by one SpawnBallRequested
with count 1, and reset the elapsed timer.  The returned list is what gets
published on the bus, in order. -/
def ChaosSystem.update (c : ChaosSystem) (s : RuntimeSettings) (rng : Rng) (dt : ℚ) :
    ChaosSystem × List GameEvent × Rng :=
  if ¬ c.enabled then (c, [], rng)
  else
    let e2 := c.elapsed + dt
    if e2 < c.interval then ({ c with elapsed := e2 }, [], rng)
    else
      let c2 := { c with elapsed := 0 }
      let (u1, r1) := rng.uniform (85/100) (130/100)
      let speed_variation : ℚ := s.ball.speed.toRat * u1
      let (u2, r2) := r1.uniform (8/10) (12/10)
      let size_variation : ℤ := ratTrunc (max 8 (min 32 (s.ball.size.toRat * u2)))
      (c2,
       [GameEvent.settingsChangeRequested "ball"
          [("speed", Value.floatV speed_variation), ("size", Value.intV size_variation)],
        GameEvent.spawnBallRequested 1 Option.none Option.none],
       r2)

/-! ## pong/game.py -/

/-- A particle of the per-ball trail effect (the plain dict used in
PongGame._spawn_trail_particles). -/
structure TrailParticle where
  x : ℝ
  y : ℝ
  vx : ℚ
  vy : ℚ
  life : ℚ
  alpha : ℤ
  size : ℚ
  color : ℤ × ℤ × ℤ

/-- Association-list model of a Python dict (insertion order preserved;
assignment to an existing key updates in place). -/
def assocGet (l : List (String × α)) (k : String) : Option α :=
  (l.find? (fun p => p.1 = k)).map (fun p => p.2)

def assocGetD (l : List (String × α)) (k : String) (d : α) : α :=
  (assocGet l k).getD d

def assocSet (l : List (String × α)) (k : String) (v : α) : List (String × α) :=
  if (l.find? (fun p => p.1 = k)).isSome then
    l.map (fun p => if p.1 = k then (k, v) else p)
  else l ++ [(k, v)]

def assocPop (l : List (String × α)) (k : String) : List (String × α) :=
  l.filter (fun p => ¬ p.1 = k)

/-- Python truthiness of an optional string (None and the empty string are
falsy). -/
def truthyStr : Option String → Bool
  | Option.some s => ¬ s = ""
  | Option.none => false

/-- The whole mutable state of a PongGame, in __init__ order.  The particle
system, the speed-boost powerup timers and the chaos system are inlined; the
events field is the trace of all events published on the bus, in publish
order.  SkinManager state is omitted: its only event listener reloads drawing
surfaces, which no gameplay state reads. -/
structure GameState where
  settings : RuntimeSettings
  botMode : Option String
  leftPaddle : Paddle
  rightPaddle : Paddle
  scoreLeft : ℕ
  scoreRight : ℕ
  boostLeft : ℚ
  boostRight : ℚ
  chaos : ChaosSystem
  balls : List Ball
  trails : List (String × List (ℝ × ℝ))
  trailParticles : List (String × List TrailParticle)
  trailActive : List (String × Bool)
  particles : List Particle
  ballSeq : ℕ
  timeAcc : ℚ
  rng : Rng
  events : List GameEvent

/-- Append a published event to the trace (used directly for events that
have no state-mutating listeners: BallSpawned, BallRemoved, RoundReset and
SettingsChanged — the latter only triggers the SkinManager sprite reload). -/
def pushEvent (g : GameState) (e : GameEvent) : GameState :=
  { g with events := g.events ++ [e] }

/-- Replace the ball with the given id (in-place object mutation of a list
element; ball ids are unique by construction via _ball_seq). -/
def setBall (g : GameState) (bid : String) (b : Ball) : GameState :=
  { g with balls := g.balls.map (fun x => if x.ball_id = bid then b else x) }

/-- One iteration of the PongGame._spawn_balls loop. -/
noncomputable def spawnOne (g : GameState) (speedOpt : Option ℚ) (sizeOpt : Option ℤ) :
    GameState :=
  let seq2 := g.ballSeq + 1
  let (dir, r2) := g.rng.choicePM
  let use_speed : ℚ := speedOpt.getD g.settings.ball.speed.toRat
  let use_size : ℤ := sizeOpt.getD g.settings.ball.size.toInt
  let bid := "ball-" ++ toString seq2
  let b : Ball := ⟨bid,
    (((g.settings.display.width.toRat - (use_size : ℚ)) / 2 : ℚ) : ℝ),
    (((g.settings.display.height.toRat - (use_size : ℚ)) / 2 : ℚ) : ℝ),
    ((use_speed * (dir : ℚ) : ℚ) : ℝ),
    ((use_speed * (33/100) * (dir : ℚ) : ℚ) : ℝ),
    (255, 225, 150), 0⟩
  let g2 := { g with ballSeq := seq2, rng := r2, balls := g.balls ++ [b] }
  let g3 := pushEvent g2 (GameEvent.ballSpawned bid)
  { g3 with trails := assocSet g3.trails bid [],
            trailParticles := assocSet g3.trailParticles bid [],
            trailActive := assocSet g3.trailActive bid false }

/-- PongGame._spawn_balls. -/
noncomputable def spawnBalls : GameState → ℕ → Option ℚ → Option ℤ → GameState
  | g, 0, _, _ => g
  | g, Nat.succ n, sp, sz => spawnBalls (spawnOne g sp sz) n sp sz

/-- PongGame._remove_ball (balls are identified by their unique id). -/
def removeBall (g : GameState) (bid : String) : GameState :=
  if g.balls.any (fun b => b.ball_id = bid) then
    let g2 := { g with balls := g.balls.eraseP (fun b => b.ball_id = bid) }
    let g3 := pushEvent g2 (GameEvent.ballRemoved bid)
    { g3 with trails := assocPop g3.trails bid,
              trailParticles := assocPop g3.trailParticles bid,
              trailActive := assocPop g3.trailActive bid }
  else g

/-- PongGame._reset_round. -/
noncomputable def resetRound (g : GameState) : GameState :=
  let c : ℝ := (((g.settings.display.height.toRat - g.settings.paddle.height.toRat) / 2 : ℚ) : ℝ)
  let g1 := { g with leftPaddle := { g.leftPaddle with y := c },
                     rightPaddle := { g.rightPaddle with y := c },
                     balls := [] }
  let g2 := spawnBalls g1 g.settings.ball.count_on_reset.toInt.toNat Option.none Option.none
  let g3 := pushEvent g2 GameEvent.roundReset
  { g3 with trails := [], trailParticles := [], trailActive := [] }

/-- PongGame._restart. -/
noncomputable def restartGame (g : GameState) : GameState :=
  resetRound { g with scoreLeft := 0, scoreRight := 0 }

/-- PongGame._on_point_scored: self.score[scorer_id] += 1. -/
def onPointScored (g : GameState) (scorer : String) : GameState :=
  if scorer = "left" then { g with scoreLeft := g.scoreLeft + 1 }
  else if scorer = "right" then { g with scoreRight := g.scoreRight + 1 }
  else g

/-- SpeedBoostPowerup._on_point_scored. -/
def speedBoostOnPoint (g : GameState) : GameState :=
  { g with leftPaddle := { g.leftPaddle with speed_multiplier := 1 },
           rightPaddle := { g.rightPaddle with speed_multiplier := 1 },
           boostLeft := 0, boostRight := 0 }

/-- SpeedBoostPowerup._on_hit. -/
def speedBoostOnHit (g : GameState) (pid : String) : GameState :=
  if pid = "left" then { g with boostLeft := 6/5 }
  else if pid = "right" then { g with boostRight := 6/5 }
  else g

/-- SpeedBoostPowerup.update. -/
def powerupsUpdate (g : GameState) (dt : ℚ) : GameState :=
  let tl := max 0 (g.boostLeft - dt)
  let tr := max 0 (g.boostRight - dt)
  { g with
      boostLeft := tl,
      boostRight := tr,
      leftPaddle := { g.leftPaddle with speed_multiplier := if tl > 0 then 8/5 else 1 },
      rightPaddle := { g.rightPaddle with speed_multiplier := if tr > 0 then 8/5 else 1 } }

/-- PongGame._on_settings_change_requested: patch, then publish
SettingsChanged with the applied mapping.  A patch error is a raised
exception: the settings keep the partially applied values and no
SettingsChanged is published. -/
def onSettingsChangeRequested (g : GameState) (sec : String)
    (values : List (String × Value)) : GameState :=
  let r := g.settings.patch sec values
  match r.error with
  | Option.some _ => { g with settings := r.settings }
  | Option.none =>
    let g2 := { g with settings := r.settings }
    pushEvent g2 (GameEvent.settingsChanged sec r.applied)

/-- PongGame._on_spawn_request. -/
noncomputable def onSpawnRequest (g : GameState) (count : ℤ) (sp : Option ℚ)
    (sz : Option ℤ) : GameState :=
  spawnBalls g count.toNat sp sz

/-- bus.publish(event) with the subscriptions made in PongGame.__init__ and
PowerupManager.with_default_template: the event goes on the trace, then each
listener of its exact kind runs in subscription order. -/
noncomputable def publishE (g : GameState) (e : GameEvent) : GameState :=
  let g1 := pushEvent g e
  match e with
  | .pointScored sid => speedBoostOnPoint (onPointScored g1 sid)
  | .ballHitPaddle pid => speedBoostOnHit g1 pid
  | .settingsChangeRequested sec vals => onSettingsChangeRequested g1 sec vals
  | .spawnBallRequested c sp sz => onSpawnRequest g1 c sp sz
  | _ => g1

/-- pygame.Rect with int() truncation of the float coordinates. -/
structure Rect where
  x : ℤ
  y : ℤ
  w : ℤ
  h : ℤ

/-- Ball.rect. -/
noncomputable def Ball.rect (b : Ball) (s : RuntimeSettings) : Rect :=
  ⟨pyInt b.x, pyInt b.y, s.ball.size.toInt, s.ball.size.toInt⟩

/-- Paddle.rect. -/
noncomputable def Paddle.rect (p : Paddle) (s : RuntimeSettings) : Rect :=
  ⟨pyInt p.x, pyInt p.y, s.paddle.width.toInt, s.paddle.height.toInt⟩

/-- pygame.Rect.colliderect: strict overlap on both axes. -/
def Rect.colliderect (a b : Rect) : Prop :=
  a.x < b.x + b.w ∧ b.x < a.x + a.w ∧ a.y < b.y + b.h ∧ b.y < a.y + a.h

noncomputable instance (a b : Rect) : Decidable (Rect.colliderect a b) := by
  unfold Rect.colliderect; infer_instance

/-- The body of the paddle loop in PongGame._handle_collisions for one paddle:
on overlap, bounce, mark the trail active, publish BallHitPaddle, and spawn a
burst of 10 particles at the ball center. -/
noncomputable def paddleHit (g : GameState) (b : Ball) (pid : String) :
    GameState × Ball :=
  let p := if pid = "left" then g.leftPaddle else g.rightPaddle
  if (b.rect g.settings).colliderect (p.rect g.settings) then
    let b2 := b.bounceFromPaddle p g.settings
    let g2 := setBall g b.ball_id b2
    let g3 := { g2 with trailActive := assocSet g2.trailActive b.ball_id true }
    let g4 := publishE g3 (GameEvent.ballHitPaddle pid)
    let bsz : ℝ := ((g.settings.ball.size.toInt : ℤ) : ℝ)
    let (ps, r2) := spawnBurst (b2.x + bsz / 2) (b2.y + bsz / 2) b2.color 10
      g4.particles g4.rng
    ({ g4 with particles := ps, rng := r2 }, b2)
  else (g, b)

/-- One iteration of the ball loop in PongGame._handle_collisions: wall
bounce, the two paddles, then the scoring checks. -/
noncomputable def processBall (g : GameState) (bid : String) : GameState :=
  match g.balls.find? (fun b => b.ball_id = bid) with
  | Option.none => g
  | Option.some b0 =>
    let disp_h : ℝ := (g.settings.display.height.toRat : ℝ)
    let disp_w : ℝ := (g.settings.display.width.toRat : ℝ)
    let bsizeZ : ℤ := g.settings.ball.size.toInt
    let bsize : ℝ := (bsizeZ : ℝ)
    let b1 :=
      if b0.y ≤ 0 ∧ b0.velocity_y < 0 then Ball.bounceVertical { b0 with y := 0 }
      else if b0.y + bsize ≥ disp_h ∧ b0.velocity_y > 0 then
        Ball.bounceVertical { b0 with y := disp_h - bsize }
      else b0
    let g1 := setBall g bid b1
    let r1 := paddleHit g1 b1 "left"
    let r2 := paddleHit r1.1 r1.2 "right"
    let g3 := r2.1
    let b3 := r2.2
    if b3.x < -bsize then
      let burst := spawnBurst 0 (b3.y + bsize / 2) b3.color 16 g3.particles g3.rng
      let g4 := { g3 with particles := burst.1, rng := burst.2 }
      let g5 := publishE g4 (GameEvent.pointScored "right")
      removeBall g5 bid
    else if b3.x > disp_w + bsize then
      let burst := spawnBurst disp_w (b3.y + bsize / 2) b3.color 16 g3.particles g3.rng
      let g4 := { g3 with particles := burst.1, rng := burst.2 }
      let g5 := publishE g4 (GameEvent.pointScored "left")
      removeBall g5 bid
    else g3

/-- PongGame._handle_collisions: iterate over a snapshot of the ball list,
then reset the round if no balls remain and nobody has won yet. -/
noncomputable def handleCollisions (g : GameState) : GameState :=
  let snapshot := g.balls.map (fun b => b.ball_id)
  let g1 := snapshot.foldl processBall g
  if g1.balls.isEmpty ∧
      ((max g1.scoreLeft g1.scoreRight : ℕ) : ℤ) < g1.settings.matchCfg.win_score.toInt then
    resetRound g1
  else g1

/-- PongGame._rainbow_color. -/
noncomputable def rainbowColor (t : ℝ) : ℤ × ℤ × ℤ :=
  (pyInt (127 * Real.sin ((8/5) * t) + 128),
   pyInt (127 * Real.sin ((8/5) * t + 2) + 128),
   pyInt (127 * Real.sin ((8/5) * t + 4) + 128))

/-- PongGame._trail_color. -/
noncomputable def trailColor (s : RuntimeSettings) (t : ℝ) : ℤ × ℤ × ℤ :=
  if s.trail.effect = Value.strV "trail_fire" then (255, 140, 80)
  else if s.trail.effect = Value.strV "trail_neon" then (80, 200, 255)
  else if s.trail.effect = Value.strV "trail_spark" then (255, 230, 160)
  else if s.trail.effect = Value.strV "trail_pixel" then (180, 180, 255)
  else if s.trail.effect = Value.strV "trail_rainbow" then rainbowColor t
  else if s.trail.effect = Value.strV "trail_smoke" then (170, 170, 170)
  else (200, 200, 200)

/-- One iteration of the loop in PongGame._spawn_trail_particles. -/
noncomputable def spawnTrailParticleOne (g : GameState) (b : Ball) (rng : Rng) :
    TrailParticle × Rng :=
  let eff := g.settings.trail.effect
  let col0 := trailColor g.settings (g.timeAcc : ℝ)
  let (psize, r1) := rng.uniform 3 8
  let (life, r2) := r1.uniform (25/100) (6/10)
  let (uvx, r3) := r2.uniform (-40) 40
  let vx0 : ℚ := uvx * (16/1000)
  let (uvy, r4) := r3.uniform (-30) 10
  let vy0 : ℚ := uvy * (16/1000)
  if eff = Value.strV "trail_fire" then
    let (c1, r5) := r4.randint 100 160
    let (c2, r6) := r5.randint 40 90
    (⟨b.x, b.y, vx0, vy0 - 1/10, life, 255, psize, (255, c1, c2)⟩, r6)
  else if eff = Value.strV "trail_neon" then
    let (c1, r5) := r4.randint 60 120
    let (c2, r6) := r5.randint 180 255
    (⟨b.x, b.y, vx0, vy0, life, 255, psize, (c1, c2, 255)⟩, r6)
  else if eff = Value.strV "trail_spark" then
    let (c1, r5) := r4.randint 140 200
    let (s2, r6) := r5.uniform 2 5
    (⟨b.x, b.y, vx0 * 2, vy0, life, 255, s2, (255, 230, c1)⟩, r6)
  else if eff = Value.strV "trail_pixel" then
    let (s2, r5) := r4.uniform 2 4
    (⟨b.x, b.y, 0, 0, life, 255, s2, (180, 180, 255)⟩, r5)
  else if eff = Value.strV "trail_rainbow" then
    let (u, r5) := r4.rand
    (⟨b.x, b.y, vx0, vy0, life, 255, psize, rainbowColor ((g.timeAcc : ℝ) + (u : ℝ))⟩, r5)
  else if eff = Value.strV "trail_smoke" then
    (⟨b.x, b.y, vx0, -|vy0| * (1/2), life, 255, psize, (160, 160, 160)⟩, r4)
  else
    (⟨b.x, b.y, vx0, vy0, life, 255, psize, col0⟩, r4)

/-- The spawn loop of PongGame._spawn_trail_particles. -/
noncomputable def spawnTrailLoop (g : GameState) (b : Ball) :
    ℕ → List TrailParticle → Rng → List TrailParticle × Rng
  | 0, ps, rng => (ps, rng)
  | Nat.succ n, ps, rng =>
    let pr := spawnTrailParticleOne g b rng
    spawnTrailLoop g b n (ps ++ [pr.1]) pr.2

/-- PongGame._spawn_trail_particles. -/
noncomputable def spawnTrailParticles (g : GameState) (b : Ball) (speed : ℝ) :
    GameState :=
  if g.settings.trail.effect = Value.strV "trail_none" then g
  else
    let spawn_count : ℕ := if speed < 250 then 2 else 4
    let plist := assocGetD g.trailParticles b.ball_id []
    let res := spawnTrailLoop g b spawn_count plist g.rng
    { g with trailParticles := assocSet g.trailParticles b.ball_id res.1, rng := res.2 }

/-- The per-particle aging step of the particle loop in
PongGame._update_trails. -/
noncomputable def ageTrailParticle (p : TrailParticle) : TrailParticle :=
  { p with
      x := p.x + (p.vx : ℝ),
      y := p.y + (p.vy : ℝ),
      vy := p.vy + 20 * (16/1000),
      life := p.life - 16/1000,
      alpha := max 0 (p.alpha - 8) }

noncomputable def ageTrailParticles (l : List TrailParticle) : List TrailParticle :=
  (l.map ageTrailParticle).filter (fun p => decide (0 < p.life))

/-- The per-ball half of PongGame._update_trails. -/
noncomputable def updateTrailsBall (g : GameState) (bid : String) : GameState :=
  match g.balls.find? (fun b => b.ball_id = bid) with
  | Option.none => g
  | Option.some b =>
    if ¬ assocGetD g.trailActive bid false then g
    else
      let speed := Real.sqrt (b.velocity_x ^ 2 + b.velocity_y ^ 2)
      let max_len : ℤ := pyInt (max 12 (min 40 (speed / 12)))
      let trail0 := assocGetD g.trails bid []
      let trail1 := (b.x, b.y) :: trail0
      let trail2 := if (trail1.length : ℤ) > max_len then trail1.dropLast else trail1
      let g1 := { g with trails := assocSet g.trails bid trail2 }
      spawnTrailParticles g1 b speed

/-- PongGame._update_trails. -/
noncomputable def updateTrails (g : GameState) : GameState :=
  if g.settings.trail.effect = Value.strV "trail_none" then g
  else
    let g1 := (g.balls.map (fun b => b.ball_id)).foldl updateTrailsBall g
    { g1 with trailParticles :=
        g1.trailParticles.map (fun kv => (kv.1, ageTrailParticles kv.2)) }

/-- The factor table of PongGame._ai_keys. -/
def botFactor : Option String → ℚ
  | Option.some "easy" => 7/10
  | Option.some "medium" => 1
  | Option.some "hard" => 23/20
  | Option.some "ai" => 5/4
  | _ => 1

/-- min(balls, key=...) — first element with minimal key. -/
noncomputable def argminBall (balls : List Ball) (px : ℝ) : Option Ball :=
  balls.foldl (fun acc b => match acc with
    | Option.none => Option.some b
    | Option.some c => if |b.x - px| < |c.x - px| then Option.some b else Option.some c)
    Option.none

/-- PongGame._ai_keys: sets the right paddle speed factor and returns the
bot key snapshot. -/
noncomputable def aiKeys (g : GameState) : GameState × Keys :=
  let g1 := { g with rightPaddle :=
    { g.rightPaddle with speed_multiplier := botFactor g.botMode } }
  match argminBall g1.balls g1.rightPaddle.x with
  | Option.none => (g1, fun _ => false)
  | Option.some tb =>
    let paddle_center := g1.rightPaddle.y + (g1.settings.paddle.height.toRat : ℝ) / 2
    let target_y := tb.y + (g1.settings.ball.size.toRat : ℝ) / 2
    if |target_y - paddle_center| ≤ 6 then (g1, fun _ => false)
    else
      (g1, fun k =>
        if k = K_UP then decide (target_y < paddle_center)
        else if k = K_DOWN then decide (target_y > paddle_center)
        else false)

/-- The rotation + position advance applied to each ball in PongGame.update. -/
noncomputable def advanceBall (s : RuntimeSettings) (dt : ℚ) (b : Ball) : Ball :=
  Ball.update
    { b with rotation_angle :=
        pyFmod (b.rotation_angle + (s.sprites.ball_rotation_speed.toRat : ℝ) * (dt : ℝ)) 360 }
    (dt : ℝ)

/-- PongGame.update(dt). -/
noncomputable def GameState.update (g : GameState) (dt : ℚ) (keys : Keys) : GameState :=
  if ((max g.scoreLeft g.scoreRight : ℕ) : ℤ) < g.settings.matchCfg.win_score.toInt then
    let g1 := { g with leftPaddle := g.leftPaddle.update g.settings (dt : ℝ) keys }
    let g2 :=
      if truthyStr g1.botMode then
        let ga := aiKeys g1
        { ga.1 with rightPaddle := ga.1.rightPaddle.update ga.1.settings (dt : ℝ) ga.2 }
      else { g1 with rightPaddle := g1.rightPaddle.update g1.settings (dt : ℝ) keys }
    let g3 := { g2 with balls := g2.balls.map (advanceBall g2.settings dt) }
    let cr := g3.chaos.update g3.settings g3.rng dt
    let g4 := cr.2.1.foldl publishE { g3 with chaos := cr.1, rng := cr.2.2 }
    let g5 := handleCollisions g4
    let g6 := updateTrails g5
    let g7 := powerupsUpdate g6 dt
    let g8 := { g7 with particles := particlesUpdate g7.particles dt }
    let g9 :=
      if keys K_SPACE then publishE g8 (GameEvent.spawnBallRequested 1 Option.none Option.none)
      else g8
    { g9 with timeAcc := g9.timeAcc + dt }
  else if keys K_r then
    let g1 := restartGame g
    { g1 with timeAcc := g1.timeAcc + dt }
  else { g with timeAcc := g.timeAcc + dt }

/-! ## Sample states used by concrete witnesses and counterexamples -/

noncomputable def samplePaddle : Paddle := ⟨"left", 32, 215, K_w, K_s, (240, 240, 240), 1⟩

noncomputable def sampleBall : Ball := ⟨"ball-1", 100, 200, -3, 4, (255, 225, 150), 0⟩

def zeroRng : Rng := ⟨fun _ => 0, 0⟩

noncomputable def sampleRightPaddle : Paddle :=
  ⟨"right", 912, 215, K_UP, K_DOWN, (240, 240, 240), 1⟩

noncomputable def sampleState : GameState :=
  { settings := RuntimeSettings.default,
    botMode := Option.none,
    leftPaddle := samplePaddle,
    rightPaddle := sampleRightPaddle,
    scoreLeft := 10,
    scoreRight := 3,
    boostLeft := 0,
    boostRight := 0,
    chaos := ChaosSystem.init,
    balls := [],
    trails := [],
    trailParticles := [],
    trailActive := [],
    particles := [],
    ballSeq := 0,
    timeAcc := 0,
    rng := zeroRng,
    events := [] }

/-- The scenario family used for the scoring/round-reset claims: a single
ball fully past the left edge (x = -ballSize - 1 = -17), default settings,
paddles at their standard x positions but off-center vertically. -/
noncomputable def scenarioPaddleL : Paddle := ⟨"left", 32, 100, K_w, K_s, (240, 240, 240), 1⟩

noncomputable def scenarioPaddleR : Paddle :=
  ⟨"right", 912, 330, K_UP, K_DOWN, (240, 240, 240), 1⟩

noncomputable def scenarioBall (y vy : ℝ) : Ball :=
  ⟨"ball-1", -17, y, -300, vy, (255, 225, 150), 0⟩

/-- Random stream for the scenario: draws 0..63 feed the goal particle
burst; draw 64 is the direction choice of the respawned ball. -/
def scenarioRng (u : ℚ) : Rng := ⟨fun n => if n = 64 then u else 0, 0⟩

noncomputable def scenarioState (y vy : ℝ) (sl sr : ℕ) (u : ℚ) : GameState :=
  { settings := RuntimeSettings.default,
    botMode := Option.none,
    leftPaddle := scenarioPaddleL,
    rightPaddle := scenarioPaddleR,
    scoreLeft := sl,
    scoreRight := sr,
    boostLeft := 0,
    boostRight := 0,
    chaos := ChaosSystem.init,
    balls := [scenarioBall y vy],
    trails := [("ball-1", [])],
    trailParticles := [("ball-1", [])],
    trailActive := [("ball-1", false)],
    particles := [],
    ballSeq := 1,
    timeAcc := 0,
    rng := scenarioRng u,
    events := [] }


/-- The scenario state right after the point has been scored and the ball
removed (the value of processBall on the scenario state). -/
noncomputable def scenarioAfterPoint (y vy : ℝ) (sl sr : ℕ) (u : ℚ) : GameState :=
  { settings := RuntimeSettings.default,
    botMode := Option.none,
    leftPaddle := { scenarioPaddleL with speed_multiplier := 1 },
    rightPaddle := { scenarioPaddleR with speed_multiplier := 1 },
    scoreLeft := sl,
    scoreRight := sr + 1,
    boostLeft := 0,
    boostRight := 0,
    chaos := ChaosSystem.init,
    balls := [],
    trails := [],
    trailParticles := [],
    trailActive := [],
    particles := (spawnBurst 0 (y + 8) (255, 225, 150) 16 [] (scenarioRng u)).1,
    ballSeq := 1,
    timeAcc := 0,
    rng := ⟨(scenarioRng u).seq, 64⟩,
    events := [GameEvent.pointScored "right", GameEvent.ballRemoved "ball-1"] }

/-! ## Theorems -/

theorem EventBus.listeners_ofSubs_aux (subs : List (EventKind × ℕ)) (b : EventBus)
    (k : EventKind) :
    (subs.foldl (fun b s => b.subscribe s.1 s.2) b).listeners k =
      b.listeners k ++ (subs.filter (fun s => s.1 = k)).map (fun s => s.2) := by
  induction subs generalizing b with
  | nil => simp
  | cons hd tl ih =>
    simp only [List.foldl_cons, List.filter_cons]
    rw [ih]
    by_cases h : hd.1 = k
    · simp [EventBus.subscribe, h]
    · have h2 : ¬ k = hd.1 := fun hh => h hh.symm
      simp [EventBus.subscribe, h, h2]

theorem patchGo_ok (sec : String) (vs : List (String × Value)) :
    ∀ (cur : RuntimeSettings) (acc : List (String × Value)),
      (∀ kv ∈ vs, RuntimeSettings.hasField sec kv.1 = true) →
      patchGo sec cur vs acc = ⟨vs.foldl (patchStep sec) cur, acc ++ vs, Option.none⟩ := by
  induction vs with
  | nil => intro cur acc _; simp [patchGo]
  | cons hd tl ih =>
    intro cur acc h
    obtain ⟨k, v⟩ := hd
    have hk : RuntimeSettings.hasField sec k = true := h (k, v) (List.mem_cons_self _ _)
    simp only [patchGo, hk, if_pos]
    rw [ih _ _ (fun kv hkv => h kv (List.mem_cons_of_mem _ hkv))]
    simp [patchStep]

theorem patchGo_err (sec k : String) (v : Value) (pre : List (String × Value)) :
    ∀ (post : List (String × Value)) (cur : RuntimeSettings) (acc : List (String × Value)),
      (∀ kv ∈ pre, RuntimeSettings.hasField sec kv.1 = true) →
      RuntimeSettings.hasField sec k = false →
      patchGo sec cur (pre ++ (k, v) :: post) acc =
        ⟨pre.foldl (patchStep sec) cur, acc ++ pre,
         Option.some ("Unknown field " ++ k ++ " for section " ++ sec)⟩ := by
  induction pre with
  | nil =>
    intro post cur acc _ hk
    simp [patchGo, hk]
  | cons hd tl ih =>
    intro post cur acc h hk
    obtain ⟨k2, v2⟩ := hd
    have hk2 : RuntimeSettings.hasField sec k2 = true := h (k2, v2) (List.mem_cons_self _ _)
    simp only [List.cons_append, patchGo, hk2, if_pos]
    rw [List.append_eq, ih _ _ _ (fun kv hkv => h kv (List.mem_cons_of_mem _ hkv)) hk]
    simp [patchStep]

/-- C1 (counterexample): the claim says a values mapping with one valid and
one unknown field leaves the section entirely unchanged; but
patch("ball", {speed: 250, bogus: 1}) raises the unknown-field error with
ball.speed already mutated from 300 to 250. -/
theorem C1_counterexample :
    (RuntimeSettings.default.patch "ball"
        [("speed", Value.floatV 250), ("bogus", Value.intV 1)]).error.isSome = true ∧
    (RuntimeSettings.default.patch "ball"
        [("speed", Value.floatV 250), ("bogus", Value.intV 1)]).settings.ball.speed =
      Value.floatV 250 ∧
    RuntimeSettings.default.ball.speed = Value.floatV 300 ∧
    (RuntimeSettings.default.patch "ball"
        [("speed", Value.floatV 250), ("bogus", Value.intV 1)]).settings.ball ≠
      RuntimeSettings.default.ball := by
  refine ⟨rfl, rfl, rfl, ?_⟩
  decide

/-- C1 (amended): patch validates the section before touching anything, and
on a fully valid values mapping applies every assignment and echoes the
mapping; but field validation happens per key inside the application loop,
so on a mapping whose first unknown key is preceded by valid keys the call
raises the unknown-field error with those earlier keys already applied
(partial apply, not all-or-nothing). -/
theorem C1_patch_spec (s : RuntimeSettings) (sec : String) (vs : List (String × Value)) :
    (sectionNames.contains sec = false →
      s.patch sec vs = ⟨s, [], Option.some ("Unknown settings section " ++ sec)⟩) ∧
    (sectionNames.contains sec = true →
      (∀ kv ∈ vs, RuntimeSettings.hasField sec kv.1 = true) →
      s.patch sec vs = ⟨vs.foldl (patchStep sec) s, vs, Option.none⟩) ∧
    (∀ pre k v post, sectionNames.contains sec = true →
      vs = pre ++ (k, v) :: post →
      (∀ kv ∈ pre, RuntimeSettings.hasField sec kv.1 = true) →
      RuntimeSettings.hasField sec k = false →
      s.patch sec vs = ⟨pre.foldl (patchStep sec) s, pre,
        Option.some ("Unknown field " ++ k ++ " for section " ++ sec)⟩) := by
  refine ⟨?_, ?_, ?_⟩
  · intro hsec
    have hn : ¬ (sectionNames.contains sec = true) := by
      intro h
      rw [hsec] at h
      exact Bool.false_ne_true h
    unfold RuntimeSettings.patch
    rw [if_neg hn]
  · intro hsec hall
    unfold RuntimeSettings.patch
    rw [if_pos hsec, patchGo_ok sec vs s [] hall]
    simp
  · intro pre k v post hsec hvs hpre hk
    subst hvs
    unfold RuntimeSettings.patch
    rw [if_pos hsec, patchGo_err sec k v pre post s [] hpre hk]
    simp

theorem C1_patch_spec_witness :
    RuntimeSettings.default.patch "ball" [("speed", Value.floatV 250)] =
      ⟨[("speed", Value.floatV 250)].foldl (patchStep "ball") RuntimeSettings.default,
       [("speed", Value.floatV 250)], Option.none⟩ ∧
    RuntimeSettings.default.patch "bogus_section" [] =
      ⟨RuntimeSettings.default, [],
       Option.some ("Unknown settings section " ++ "bogus_section")⟩ := by
  constructor
  · exact (C1_patch_spec RuntimeSettings.default "ball"
      [("speed", Value.floatV 250)]).2.1 (by decide) (by decide)
  · exact (C1_patch_spec RuntimeSettings.default "bogus_section" []).1 (by decide)

/-- C2: all eight event variants are available as tagged records carrying
exactly their construction fields, and attribute assignment on any
constructed event fails with FrozenInstanceError (frozen dataclass), leaving
the record untouched. -/
theorem C2_event_model :
    (∀ p, (GameEvent.ballHitPaddle p).kind = EventKind.ballHitPaddle ∧
          (GameEvent.ballHitPaddle p).paddleIdOf = Option.some p) ∧
    (∀ p, (GameEvent.pointScored p).kind = EventKind.pointScored ∧
          (GameEvent.pointScored p).scorerIdOf = Option.some p) ∧
    GameEvent.roundReset.kind = EventKind.roundReset ∧
    (∀ b, (GameEvent.ballSpawned b).kind = EventKind.ballSpawned ∧
          (GameEvent.ballSpawned b).ballIdOf = Option.some b) ∧
    (∀ b, (GameEvent.ballRemoved b).kind = EventKind.ballRemoved ∧
          (GameEvent.ballRemoved b).ballIdOf = Option.some b) ∧
    (∀ sec vals,
      (GameEvent.settingsChangeRequested sec vals).kind = EventKind.settingsChangeRequested ∧
      (GameEvent.settingsChangeRequested sec vals).sectionOf = Option.some sec ∧
      (GameEvent.settingsChangeRequested sec vals).valuesOf = Option.some vals) ∧
    (∀ sec vals,
      (GameEvent.settingsChanged sec vals).kind = EventKind.settingsChanged ∧
      (GameEvent.settingsChanged sec vals).sectionOf = Option.some sec ∧
      (GameEvent.settingsChanged sec vals).valuesOf = Option.some vals) ∧
    (∀ c sp sz,
      (GameEvent.spawnBallRequested c sp sz).kind = EventKind.spawnBallRequested ∧
      (GameEvent.spawnBallRequested c sp sz).countOf = Option.some c ∧
      (GameEvent.spawnBallRequested c sp sz).speedArgOf = Option.some sp ∧
      (GameEvent.spawnBallRequested c sp sz).sizeArgOf = Option.some sz) ∧
    (∀ e k v, GameEvent.setAttr e k v = Except.error "FrozenInstanceError") :=
  ⟨fun _ => ⟨rfl, rfl⟩, fun _ => ⟨rfl, rfl⟩, rfl,
   fun _ => ⟨rfl, rfl⟩, fun _ => ⟨rfl, rfl⟩,
   fun _ _ => ⟨rfl, rfl, rfl⟩, fun _ _ => ⟨rfl, rfl, rfl⟩,
   fun _ _ _ => ⟨rfl, rfl, rfl, rfl⟩, fun _ _ _ => rfl⟩

/-- C7: publishing on a bus built by any sequence of subscribe calls invokes
exactly the listeners subscribed for the exact kind of the event, in
subscription order, without deduplication and without cross-kind delivery. -/
theorem C7_publish_exact_order (subs : List (EventKind × ℕ)) (e : GameEvent) :
    (EventBus.ofSubs subs).publish e =
      (subs.filter (fun sb => sb.1 = e.kind)).map (fun sb => sb.2) := by
  unfold EventBus.publish EventBus.ofSubs
  rw [EventBus.listeners_ofSubs_aux]
  simp [EventBus.empty]

/-- C4 (counterexample): from current "play", setScene("pause") then
setScene("play") leaves the history as [play, pause] — the second call does
push "pause", contrary to the claim. -/
theorem C4_counterexample :
    (((⟨["play", "pause"], Option.some "play", []⟩ : SceneManager).setScene
        "pause").state.setScene "play").state.history = ["play", "pause"] ∧
    "pause" ∈ (((⟨["play", "pause"], Option.some "play", []⟩ : SceneManager).setScene
        "pause").state.setScene "play").state.history := by
  constructor
  · decide
  · decide

/-- C4 (amended): setScene("pause") from "play" pushes "play"; the
subsequent setScene("play") pushes "pause" as well, so the history ends
[..., play, pause]; setScene of the current scene is a no-op firing no
hooks; goBack on an empty history is a no-op. -/
theorem C4_scene_spec :
    (∀ (m : SceneManager) (a b : String), m.current = Option.some a → ¬ a = "" →
      m.scenes.contains a = true → m.scenes.contains b = true → ¬ b = a → ¬ b = "" →
      (m.setScene b).state.history = m.history ++ [a] ∧
      ((m.setScene b).state.setScene a).state.history = m.history ++ [a, b]) ∧
    (∀ (m : SceneManager) (n : String), m.current = Option.some n →
      m.setScene n = ⟨m, [], Option.none⟩) ∧
    (∀ m : SceneManager, m.history = [] → m.goBack = ⟨m, [], Option.none⟩) := by
  refine ⟨?_, ?_, ?_⟩
  · intro m a b hc ha hra hrb hba hb
    have h1 : m.setScene b =
        ⟨⟨m.scenes, Option.some b, m.history ++ [a]⟩,
         [Hook.exitH a, Hook.enterH b], Option.none⟩ := by
      have hab : ¬ a = b := fun h => hba h.symm
      have hraM : a ∈ m.scenes := by simpa using hra
      have hrbM : b ∈ m.scenes := by simpa using hrb
      simp [SceneManager.setScene, hc, hab, ha, hraM, hrbM]
    have h2 : (⟨m.scenes, Option.some b, m.history ++ [a]⟩ : SceneManager).setScene a =
        ⟨⟨m.scenes, Option.some a, (m.history ++ [a]) ++ [b]⟩,
         [Hook.exitH b, Hook.enterH a], Option.none⟩ := by
      have hraM : a ∈ m.scenes := by simpa using hra
      have hrbM : b ∈ m.scenes := by simpa using hrb
      simp [SceneManager.setScene, hba, hb, hraM, hrbM]
    rw [h1]
    refine ⟨rfl, ?_⟩
    rw [h2]
    simp
  · intro m n hc
    simp [SceneManager.setScene, hc]
  · intro m hh
    simp [SceneManager.goBack, hh]

theorem C4_scene_spec_witness :
    ((⟨["play", "pause"], Option.some "play", []⟩ : SceneManager).setScene
        "pause").state.history = [] ++ ["play"] ∧
    (((⟨["play", "pause"], Option.some "play", []⟩ : SceneManager).setScene
        "pause").state.setScene "play").state.history = [] ++ ["play", "pause"] ∧
    (⟨["play"], Option.some "play", []⟩ : SceneManager).setScene "play" =
      ⟨⟨["play"], Option.some "play", []⟩, [], Option.none⟩ ∧
    (⟨["play"], Option.some "pause", []⟩ : SceneManager).goBack =
      ⟨⟨["play"], Option.some "pause", []⟩, [], Option.none⟩ := by
  have h1 := (C4_scene_spec).1 ⟨["play", "pause"], Option.some "play", []⟩ "play" "pause"
    rfl (by decide) (by decide) (by decide) (by decide) (by decide)
  have h2 := (C4_scene_spec).2.1 ⟨["play"], Option.some "play", []⟩ "play" rfl
  have h3 := (C4_scene_spec).2.2 ⟨["play"], Option.some "pause", []⟩ rfl
  exact ⟨h1.1, h1.2, h2, h3⟩

/-- C10: setScene with an unregistered name from a registered, non-empty
current scene fires on_exit, pushes the outgoing name, and sets current to
the unregistered name before the registry lookup raises — the failed call
leaves the machine mutated with a current scene that is not in the
registry. -/
theorem C10_setScene_not_atomic (m : SceneManager) (name c : String)
    (hc : m.current = Option.some c) (hne : ¬ c = "")
    (hreg : m.scenes.contains c = true) (hnc : ¬ name = c)
    (hmiss : m.scenes.contains name = false) :
    m.setScene name =
      ⟨⟨m.scenes, Option.some name, m.history ++ [c]⟩, [Hook.exitH c],
       Option.some name⟩ := by
  have hcn : ¬ c = name := fun h => hnc h.symm
  have hregM : c ∈ m.scenes := by simpa using hreg
  have hmissM : ¬ name ∈ m.scenes := by simpa using hmiss
  simp [SceneManager.setScene, hc, hcn, hne, hregM, hmissM]

theorem C10_setScene_not_atomic_witness :
    (⟨["play"], Option.some "play", []⟩ : SceneManager).setScene "ghost" =
      ⟨⟨["play"], Option.some "ghost", [] ++ ["play"]⟩, [Hook.exitH "play"],
       Option.some "ghost"⟩ :=
  C10_setScene_not_atomic ⟨["play"], Option.some "play", []⟩ "ghost" "play"
    rfl (by decide) (by decide) (by decide) (by decide)

theorem sqrt_abs_cos_sin (sp ang : ℝ) (hsp : 0 ≤ sp) :
    Real.sqrt (|sp * Real.cos ang| ^ 2 + (sp * Real.sin ang) ^ 2) = sp := by
  have h1 : |sp * Real.cos ang| ^ 2 + (sp * Real.sin ang) ^ 2 =
      sp ^ 2 * (Real.cos ang ^ 2 + Real.sin ang ^ 2) := by
    rw [sq_abs]; ring
  rw [h1, Real.cos_sq_add_sin_sq, mul_one, Real.sqrt_sq hsp]

/-- C6: after any Paddle.update, the paddle y is inside
[0, display.height - paddle.height] whatever the keys and dt are, provided
the paddle is not taller than the display (true of the configured sizes). -/
theorem C6_paddle_clamp (p : Paddle) (s : RuntimeSettings) (dt : ℝ) (keys : Keys)
    (h : s.paddle.height.toRat ≤ s.display.height.toRat) :
    0 ≤ (p.update s dt keys).y ∧
      (p.update s dt keys).y ≤
        (s.display.height.toRat : ℝ) - (s.paddle.height.toRat : ℝ) := by
  have hR : (s.paddle.height.toRat : ℝ) ≤ (s.display.height.toRat : ℝ) := by
    exact_mod_cast h
  simp only [Paddle.update]
  constructor
  · exact le_max_left _ _
  · apply max_le
    · linarith
    · exact min_le_left _ _

theorem C6_paddle_clamp_witness :
    0 ≤ (samplePaddle.update RuntimeSettings.default 1000 (fun _ => true)).y ∧
      (samplePaddle.update RuntimeSettings.default 1000 (fun _ => true)).y ≤
        (RuntimeSettings.default.display.height.toRat : ℝ) -
          (RuntimeSettings.default.paddle.height.toRat : ℝ) :=
  C6_paddle_clamp samplePaddle RuntimeSettings.default 1000 (fun _ => true) (by decide)

/-- C3: bounce_from_paddle preserves the speed magnitude hypot(vx, vy);
with the configured bounce angle below 90 degrees it flips the horizontal
sign (moving left becomes moving right and vice versa); and it places the
ball flush on the departing side: paddle.x + paddle.width when leaving to
the right, paddle.x - ball.size when leaving to the left. -/
theorem C3_bounce_spec (b : Ball) (p : Paddle) (s : RuntimeSettings)
    (hdeg0 : 0 ≤ s.ball.max_bounce_angle_deg.toRat)
    (hdeg90 : s.ball.max_bounce_angle_deg.toRat < 90) :
    Real.sqrt ((b.bounceFromPaddle p s).velocity_x ^ 2 +
        (b.bounceFromPaddle p s).velocity_y ^ 2) =
      Real.sqrt (b.velocity_x ^ 2 + b.velocity_y ^ 2) ∧
    (b.velocity_x < 0 → 0 < (b.bounceFromPaddle p s).velocity_x) ∧
    (0 < b.velocity_x → (b.bounceFromPaddle p s).velocity_x < 0) ∧
    (0 < (b.bounceFromPaddle p s).velocity_x →
      (b.bounceFromPaddle p s).x = p.x + (s.paddle.width.toRat : ℝ)) ∧
    ((b.bounceFromPaddle p s).velocity_x ≤ 0 →
      (b.bounceFromPaddle p s).x = p.x - (s.ball.size.toRat : ℝ)) := by
  have hdg0 : (0 : ℝ) ≤ (s.ball.max_bounce_angle_deg.toRat : ℝ) := by exact_mod_cast hdeg0
  have hdg90 : ((s.ball.max_bounce_angle_deg.toRat : ℝ)) < 90 := by exact_mod_cast hdeg90
  simp only [Ball.bounceFromPaddle]
  set dg : ℝ := (s.ball.max_bounce_angle_deg.toRat : ℝ) with hdg
  set nrm : ℝ := max (-1 : ℝ)
    (min 1 ((b.y + (s.ball.size.toRat : ℝ) / 2 - (p.y + (s.paddle.height.toRat : ℝ) / 2)) /
      ((s.paddle.height.toRat : ℝ) / 2))) with hnrmdef
  set ang : ℝ := dg * Real.pi / 180 * nrm with hangdef
  set sp : ℝ := Real.sqrt (b.velocity_x ^ 2 + b.velocity_y ^ 2) with hspdef
  have hspn : 0 ≤ sp := Real.sqrt_nonneg _
  have hnrm1 : -1 ≤ nrm := le_max_left _ _
  have hnrm2 : nrm ≤ 1 := max_le (by norm_num) (min_le_left _ _)
  have hnrmabs : |nrm| ≤ 1 := abs_le.mpr ⟨hnrm1, hnrm2⟩
  have hcpos : 0 < Real.cos ang := by
    have hbound : |ang| < Real.pi / 2 := by
      have h1 : |ang| = |dg * Real.pi / 180| * |nrm| := by
        rw [hangdef, abs_mul]
      have h2 : |dg * Real.pi / 180| = dg * Real.pi / 180 := by
        apply abs_of_nonneg
        have := Real.pi_pos
        positivity
      have h3 : |ang| ≤ dg * Real.pi / 180 := by
        rw [h1, h2]
        have hnn : 0 ≤ dg * Real.pi / 180 := by
          have := Real.pi_pos
          positivity
        calc dg * Real.pi / 180 * |nrm| ≤ dg * Real.pi / 180 * 1 :=
              mul_le_mul_of_nonneg_left hnrmabs hnn
          _ = dg * Real.pi / 180 := mul_one _
      have h4 : dg * Real.pi / 180 < Real.pi / 2 := by
        have hp := Real.pi_pos
        have h5 : 0 < (90 - dg) * Real.pi := mul_pos (by linarith) hp
        nlinarith
      linarith
    have := abs_lt.mp hbound
    exact Real.cos_pos_of_mem_Ioo ⟨by linarith [this.1], this.2⟩
  refine ⟨?_, ?_, ?_, ?_, ?_⟩
  · by_cases hvx : b.velocity_x < 0
    · rw [if_pos hvx]
      exact sqrt_abs_cos_sin sp ang hspn
    · rw [if_neg hvx, neg_sq]
      exact sqrt_abs_cos_sin sp ang hspn
  · intro hvx
    rw [if_pos hvx]
    have hsp0 : 0 < sp := by
      apply Real.sqrt_pos.mpr
      have h1 : b.velocity_x ≠ 0 := ne_of_lt hvx
      have h2 : 0 < b.velocity_x ^ 2 := by positivity
      have h3 : 0 ≤ b.velocity_y ^ 2 := sq_nonneg _
      linarith
    exact abs_pos.mpr (mul_ne_zero (ne_of_gt hsp0) (ne_of_gt hcpos))
  · intro hvx
    have hnneg : ¬ b.velocity_x < 0 := by linarith
    rw [if_neg hnneg]
    have hsp0 : 0 < sp := by
      apply Real.sqrt_pos.mpr
      have h1 : b.velocity_x ≠ 0 := ne_of_gt hvx
      have h2 : 0 < b.velocity_x ^ 2 := by positivity
      have h3 : 0 ≤ b.velocity_y ^ 2 := sq_nonneg _
      linarith
    have := abs_pos.mpr (mul_ne_zero (ne_of_gt hsp0) (ne_of_gt hcpos))
    linarith
  · intro hpos
    rw [if_pos hpos]
  · intro hnonpos
    have : ¬ ((if b.velocity_x < 0 then |sp * Real.cos ang| else -|sp * Real.cos ang|) > 0) := by
      exact not_lt.mpr hnonpos
    rw [if_neg this]

theorem C3_bounce_spec_witness :
    Real.sqrt ((sampleBall.bounceFromPaddle samplePaddle RuntimeSettings.default).velocity_x ^ 2 +
        (sampleBall.bounceFromPaddle samplePaddle RuntimeSettings.default).velocity_y ^ 2) =
      Real.sqrt (sampleBall.velocity_x ^ 2 + sampleBall.velocity_y ^ 2) ∧
    (sampleBall.velocity_x < 0 →
      0 < (sampleBall.bounceFromPaddle samplePaddle RuntimeSettings.default).velocity_x) ∧
    (0 < sampleBall.velocity_x →
      (sampleBall.bounceFromPaddle samplePaddle RuntimeSettings.default).velocity_x < 0) ∧
    (0 < (sampleBall.bounceFromPaddle samplePaddle RuntimeSettings.default).velocity_x →
      (sampleBall.bounceFromPaddle samplePaddle RuntimeSettings.default).x =
        samplePaddle.x + (RuntimeSettings.default.paddle.width.toRat : ℝ)) ∧
    ((sampleBall.bounceFromPaddle samplePaddle RuntimeSettings.default).velocity_x ≤ 0 →
      (sampleBall.bounceFromPaddle samplePaddle RuntimeSettings.default).x =
        samplePaddle.x - (RuntimeSettings.default.ball.size.toRat : ℝ)) :=
  C3_bounce_spec sampleBall samplePaddle RuntimeSettings.default (by decide) (by decide)

theorem ratTrunc_eq_floor (q : ℚ) (h : 0 ≤ q) : ratTrunc q = ⌊q⌋ := by
  unfold ratTrunc
  rw [Int.tdiv_eq_ediv (Rat.num_nonneg.mpr h) (Int.natCast_nonneg q.den)]
  exact Rat.floor_def.symm

/-- C9: while enabled, ChaosSystem.update publishes nothing and accumulates
elapsed time as long as elapsed + dt stays below the interval; once it
reaches the interval it publishes exactly one SettingsChangeRequested for
the ball section (jittered speed, and a jittered size clamped into [8, 32])
followed by one SpawnBallRequested with count 1, and resets elapsed to 0. -/
theorem C9_chaos_spec (c : ChaosSystem) (s : RuntimeSettings) (rng : Rng) (dt : ℚ)
    (hen : c.enabled = true) :
    (c.elapsed + dt < c.interval →
      c.update s rng dt = ({ c with elapsed := c.elapsed + dt }, [], rng)) ∧
    (c.interval ≤ c.elapsed + dt →
      8 ≤ ratTrunc (max 8 (min 32
          (s.ball.size.toRat * (8/10 + (12/10 - 8/10) * rng.seq (rng.idx + 1))))) ∧
      ratTrunc (max 8 (min 32
          (s.ball.size.toRat * (8/10 + (12/10 - 8/10) * rng.seq (rng.idx + 1))))) ≤ 32 ∧
      c.update s rng dt =
        ({ c with elapsed := 0 },
         [GameEvent.settingsChangeRequested "ball"
            [("speed", Value.floatV
                (s.ball.speed.toRat * (85/100 + (130/100 - 85/100) * rng.seq rng.idx))),
             ("size", Value.intV (ratTrunc (max 8 (min 32
                (s.ball.size.toRat * (8/10 + (12/10 - 8/10) * rng.seq (rng.idx + 1)))))))],
          GameEvent.spawnBallRequested 1 Option.none Option.none],
         ⟨rng.seq, rng.idx + 2⟩)) := by
  constructor
  · intro hlt
    simp [ChaosSystem.update, hen, hlt]
  · intro hge
    have hnlt : ¬ (c.elapsed + dt < c.interval) := not_lt.mpr hge
    set q : ℚ := max 8 (min 32
      (s.ball.size.toRat * (8/10 + (12/10 - 8/10) * rng.seq (rng.idx + 1)))) with hqdef
    have hq8 : (8 : ℚ) ≤ q := le_max_left _ _
    have hq32 : q ≤ 32 := max_le (by norm_num) (min_le_left _ _)
    have hq0 : (0 : ℚ) ≤ q := le_trans (by norm_num) hq8
    have hfloor : ratTrunc q = ⌊q⌋ := ratTrunc_eq_floor q hq0
    refine ⟨?_, ?_, ?_⟩
    · rw [hfloor]
      exact Int.le_floor.mpr (by exact_mod_cast hq8)
    · rw [hfloor]
      calc ⌊q⌋ ≤ ⌊(32 : ℚ)⌋ := Int.floor_le_floor hq32
        _ = 32 := by norm_num
    · simp [ChaosSystem.update, hen, hnlt, Rng.uniform, Rng.next, hqdef]

theorem C9_chaos_spec_witness :
    (ChaosSystem.mk 7 (65/10) true).update RuntimeSettings.default zeroRng (1/10) =
      ({ ChaosSystem.mk 7 (65/10) true with elapsed :=
          (ChaosSystem.mk 7 (65/10) true).elapsed + 1/10 }, [], zeroRng) ∧
    (8 ≤ ratTrunc (max 8 (min 32
        (RuntimeSettings.default.ball.size.toRat *
          (8/10 + (12/10 - 8/10) * zeroRng.seq (zeroRng.idx + 1))))) ∧
     ratTrunc (max 8 (min 32
        (RuntimeSettings.default.ball.size.toRat *
          (8/10 + (12/10 - 8/10) * zeroRng.seq (zeroRng.idx + 1))))) ≤ 32 ∧
     (ChaosSystem.mk 7 (65/10) true).update RuntimeSettings.default zeroRng 1 =
       ({ ChaosSystem.mk 7 (65/10) true with elapsed := 0 },
        [GameEvent.settingsChangeRequested "ball"
           [("speed", Value.floatV
               (RuntimeSettings.default.ball.speed.toRat *
                 (85/100 + (130/100 - 85/100) * zeroRng.seq zeroRng.idx))),
            ("size", Value.intV (ratTrunc (max 8 (min 32
               (RuntimeSettings.default.ball.size.toRat *
                 (8/10 + (12/10 - 8/10) * zeroRng.seq (zeroRng.idx + 1)))))))],
         GameEvent.spawnBallRequested 1 Option.none Option.none],
        ⟨zeroRng.seq, zeroRng.idx + 2⟩)) := by
  constructor
  · exact (C9_chaos_spec (ChaosSystem.mk 7 (65/10) true) RuntimeSettings.default zeroRng
      (1/10) rfl).1 (by norm_num)
  · exact (C9_chaos_spec (ChaosSystem.mk 7 (65/10) true) RuntimeSettings.default zeroRng
      1 rfl).2 (by norm_num)

theorem pyInt_intCast (n : ℤ) : pyInt ((n : ℤ) : ℝ) = n := by
  unfold pyInt
  by_cases h : ((n : ℝ)) < 0
  · rw [if_pos h, ← Int.cast_neg, Int.floor_intCast]
    ring
  · rw [if_neg h, Int.floor_intCast]

theorem spawnBurst_rng (x y : ℝ) (c : ℤ × ℤ × ℤ) :
    ∀ (n : ℕ) (ps : List Particle) (rng : Rng),
      (spawnBurst x y c n ps rng).2 = ⟨rng.seq, rng.idx + 4 * n⟩ := by
  intro n
  induction n with
  | zero => intro ps rng; simp [spawnBurst]
  | succ m ih =>
    intro ps rng
    rw [spawnBurst]
    simp only [spawnBurstOne, Rng.uniform, Rng.next]
    rw [ih]
    congr 1
    dsimp only
    omega

theorem spawnOne_proj (g : GameState) (sp : Option ℚ) (sz : Option ℤ) :
    (spawnOne g sp sz).scoreLeft = g.scoreLeft ∧
    (spawnOne g sp sz).scoreRight = g.scoreRight ∧
    (spawnOne g sp sz).leftPaddle = g.leftPaddle ∧
    (spawnOne g sp sz).rightPaddle = g.rightPaddle ∧
    (spawnOne g sp sz).settings = g.settings ∧
    (spawnOne g sp sz).events =
      g.events ++ [GameEvent.ballSpawned ("ball-" ++ toString (g.ballSeq + 1))] := by
  simp [spawnOne, pushEvent, Rng.choicePM, Rng.next]

theorem spawnBalls_proj (n : ℕ) : ∀ (g : GameState) (sp : Option ℚ) (sz : Option ℤ),
    (spawnBalls g n sp sz).scoreLeft = g.scoreLeft ∧
    (spawnBalls g n sp sz).scoreRight = g.scoreRight ∧
    (spawnBalls g n sp sz).leftPaddle = g.leftPaddle ∧
    (spawnBalls g n sp sz).rightPaddle = g.rightPaddle ∧
    (spawnBalls g n sp sz).settings = g.settings ∧
    ∃ l, (spawnBalls g n sp sz).events = g.events ++ l := by
  induction n with
  | zero =>
    intro g sp sz
    exact ⟨rfl, rfl, rfl, rfl, rfl, [], by simp [spawnBalls]⟩
  | succ m ih =>
    intro g sp sz
    obtain ⟨h1, h2, h3, h4, h5, l, hl⟩ := ih (spawnOne g sp sz) sp sz
    obtain ⟨k1, k2, k3, k4, k5, k6⟩ := spawnOne_proj g sp sz
    refine ⟨?_, ?_, ?_, ?_, ?_, ?_⟩
    · rw [spawnBalls, h1, k1]
    · rw [spawnBalls, h2, k2]
    · rw [spawnBalls, h3, k3]
    · rw [spawnBalls, h4, k4]
    · rw [spawnBalls, h5, k5]
    · refine ⟨[GameEvent.ballSpawned ("ball-" ++ toString (g.ballSeq + 1))] ++ l, ?_⟩
      rw [spawnBalls, hl, k6]
      simp

theorem resetRound_proj (g : GameState) :
    (resetRound g).scoreLeft = g.scoreLeft ∧
    (resetRound g).scoreRight = g.scoreRight ∧
    (resetRound g).leftPaddle.y =
      (((g.settings.display.height.toRat - g.settings.paddle.height.toRat) / 2 : ℚ) : ℝ) ∧
    (resetRound g).rightPaddle.y =
      (((g.settings.display.height.toRat - g.settings.paddle.height.toRat) / 2 : ℚ) : ℝ) ∧
    GameEvent.roundReset ∈ (resetRound g).events := by
  obtain ⟨h1, h2, h3, h4, h5, l, hl⟩ := spawnBalls_proj
    g.settings.ball.count_on_reset.toInt.toNat
    { g with
        leftPaddle := { g.leftPaddle with y :=
          (((g.settings.display.height.toRat - g.settings.paddle.height.toRat) / 2 : ℚ) : ℝ) },
        rightPaddle := { g.rightPaddle with y :=
          (((g.settings.display.height.toRat - g.settings.paddle.height.toRat) / 2 : ℚ) : ℝ) },
        balls := [] }
    Option.none Option.none
  refine ⟨?_, ?_, ?_, ?_, ?_⟩
  · simp only [resetRound, pushEvent]
    rw [h1]
  · simp only [resetRound, pushEvent]
    rw [h2]
  · simp only [resetRound, pushEvent]
    rw [h3]
  · simp only [resetRound, pushEvent]
    rw [h4]
  · simp only [resetRound, pushEvent]
    rw [hl]
    simp

/-- C8: once a side has reached match.win_score, update(dt) without the
restart key leaves everything but the time accumulator unchanged (no physics
advance, paddles, balls and the live-ball set untouched); with the restart
key pressed it zeroes both scores, recenters the paddles and publishes
RoundReset (a round reset). -/
theorem C8_after_win (g : GameState) (dt : ℚ) (keys : Keys)
    (hwin : g.settings.matchCfg.win_score.toInt ≤ ((max g.scoreLeft g.scoreRight : ℕ) : ℤ)) :
    (keys K_r = false →
      g.update dt keys = { g with timeAcc := g.timeAcc + dt } ∧
      (g.update dt keys).balls = g.balls ∧
      (g.update dt keys).leftPaddle = g.leftPaddle ∧
      (g.update dt keys).rightPaddle = g.rightPaddle) ∧
    (keys K_r = true →
      (g.update dt keys).scoreLeft = 0 ∧
      (g.update dt keys).scoreRight = 0 ∧
      (g.update dt keys).leftPaddle.y =
        (((g.settings.display.height.toRat - g.settings.paddle.height.toRat) / 2 : ℚ) : ℝ) ∧
      (g.update dt keys).rightPaddle.y =
        (((g.settings.display.height.toRat - g.settings.paddle.height.toRat) / 2 : ℚ) : ℝ) ∧
      GameEvent.roundReset ∈ (g.update dt keys).events) := by
  have hnl : ¬ (((max g.scoreLeft g.scoreRight : ℕ) : ℤ) < g.settings.matchCfg.win_score.toInt) :=
    not_lt.mpr hwin
  constructor
  · intro hkr
    have hkr2 : ¬ (keys K_r = true) := by simp [hkr]
    have hupd : g.update dt keys = { g with timeAcc := g.timeAcc + dt } := by
      unfold GameState.update
      rw [if_neg hnl, if_neg hkr2]
    exact ⟨hupd, by rw [hupd], by rw [hupd], by rw [hupd]⟩
  · intro hkr
    have hupd : g.update dt keys =
        { restartGame g with timeAcc := (restartGame g).timeAcc + dt } := by
      unfold GameState.update
      rw [if_neg hnl, if_pos hkr]
    obtain ⟨h1, h2, h3, h4, h5⟩ := resetRound_proj { g with scoreLeft := 0, scoreRight := 0 }
    rw [hupd]
    exact ⟨h1, h2, h3, h4, h5⟩

theorem C8_after_win_witness :
    (sampleState.update 1 (fun _ => false) =
        { sampleState with timeAcc := sampleState.timeAcc + 1 } ∧
      (sampleState.update 1 (fun _ => false)).balls = sampleState.balls ∧
      (sampleState.update 1 (fun _ => false)).leftPaddle = sampleState.leftPaddle ∧
      (sampleState.update 1 (fun _ => false)).rightPaddle = sampleState.rightPaddle) ∧
    ((sampleState.update 1 (fun k => k = K_r)).scoreLeft = 0 ∧
      (sampleState.update 1 (fun k => k = K_r)).scoreRight = 0 ∧
      (sampleState.update 1 (fun k => k = K_r)).leftPaddle.y =
        (((sampleState.settings.display.height.toRat -
            sampleState.settings.paddle.height.toRat) / 2 : ℚ) : ℝ) ∧
      (sampleState.update 1 (fun k => k = K_r)).rightPaddle.y =
        (((sampleState.settings.display.height.toRat -
            sampleState.settings.paddle.height.toRat) / 2 : ℚ) : ℝ) ∧
      GameEvent.roundReset ∈ (sampleState.update 1 (fun k => k = K_r)).events) := by
  constructor
  · exact (C8_after_win sampleState 1 (fun _ => false) (by decide)).1 rfl
  · exact (C8_after_win sampleState 1 (fun k => k = K_r) (by decide)).2 (by decide)

theorem processBall_scenario (y vy : ℝ) (sl sr : ℕ) (u : ℚ)
    (hy1 : 0 < y) (hy2 : y + 16 < 540) :
    processBall (scenarioState y vy sl sr u) "ball-1" = scenarioAfterPoint y vy sl sr u := by
  have hc1 : ¬ (y ≤ 0) := not_le.mpr hy1
  have hc2 : ¬ ((540 : ℝ) ≤ y + 16) := by linarith
  have hp17 : pyInt ((-17 : ℝ)) = -17 := by
    rw [show ((-17 : ℝ)) = (((-17 : ℤ) : ℤ) : ℝ) by norm_num, pyInt_intCast]
  have hp32 : pyInt ((32 : ℝ)) = 32 := by
    rw [show ((32 : ℝ)) = (((32 : ℤ) : ℤ) : ℝ) by norm_num, pyInt_intCast]
  have hp912 : pyInt ((912 : ℝ)) = 912 := by
    rw [show ((912 : ℝ)) = (((912 : ℤ) : ℤ) : ℝ) by norm_num, pyInt_intCast]
  have hburst : (spawnBurst 0 (y + 8) (255, 225, 150) 16 [] (scenarioRng u)).2 =
      ⟨(scenarioRng u).seq, 64⟩ := by
    rw [spawnBurst_rng]
    rfl
  have hrne : ¬ (("right" : String) = "left") := by decide
  norm_num [processBall, scenarioState, scenarioBall, scenarioPaddleL, scenarioPaddleR,
    setBall, paddleHit, Rect.colliderect, Ball.rect, Paddle.rect, publishE, pushEvent,
    onPointScored, speedBoostOnPoint, removeBall, assocPop, assocSet, assocGetD, assocGet,
    hc1, hc2, hp17, hp32, hp912, hrne,
    hburst, scenarioAfterPoint, RuntimeSettings.default, BallSettings.default,
    DisplaySettings.default, PaddleSettings.default, Value.toInt, Value.toRat]

theorem handleCollisions_scenario_eq (y vy : ℝ) (sl sr : ℕ) (u : ℚ)
    (hy1 : 0 < y) (hy2 : y + 16 < 540) :
    handleCollisions (scenarioState y vy sl sr u) =
      if ((max sl (sr + 1) : ℕ) : ℤ) < 10 then
        resetRound (scenarioAfterPoint y vy sl sr u)
      else scenarioAfterPoint y vy sl sr u := by
  have hP := processBall_scenario y vy sl sr u hy1 hy2
  have hsnap : (scenarioState y vy sl sr u).balls.map (fun b => b.ball_id) = ["ball-1"] := by
    simp [scenarioState, scenarioBall]
  simp only [handleCollisions]
  rw [hsnap]
  simp only [List.foldl_cons, List.foldl_nil]
  rw [hP]
  by_cases hg : ((max sl (sr + 1) : ℕ) : ℤ) < 10
  · rw [if_pos, if_pos hg]
    constructor
    · simp [scenarioAfterPoint]
    · have h10 : (scenarioAfterPoint y vy sl sr u).settings.matchCfg.win_score.toInt = 10 := by
        simp [scenarioAfterPoint, RuntimeSettings.default, MatchSettings.default, Value.toInt]
      rw [h10]
      have hsc : (scenarioAfterPoint y vy sl sr u).scoreLeft = sl := by
        simp [scenarioAfterPoint]
      have hsc2 : (scenarioAfterPoint y vy sl sr u).scoreRight = sr + 1 := by
        simp [scenarioAfterPoint]
      rw [hsc, hsc2]
      exact hg
  · rw [if_neg, if_neg hg]
    intro hcontra
    apply hg
    have h10 : (scenarioAfterPoint y vy sl sr u).settings.matchCfg.win_score.toInt = 10 := by
      simp [scenarioAfterPoint, RuntimeSettings.default, MatchSettings.default, Value.toInt]
    have hsc : (scenarioAfterPoint y vy sl sr u).scoreLeft = sl := by
      simp [scenarioAfterPoint]
    have hsc2 : (scenarioAfterPoint y vy sl sr u).scoreRight = sr + 1 := by
      simp [scenarioAfterPoint]
    rw [h10, hsc, hsc2] at hcontra
    exact hcontra.2

theorem resetRound_afterPoint (y vy : ℝ) (sl sr : ℕ) (u : ℚ) :
    (resetRound (scenarioAfterPoint y vy sl sr u)).events =
      [GameEvent.pointScored "right", GameEvent.ballRemoved "ball-1",
       GameEvent.ballSpawned "ball-2", GameEvent.roundReset] ∧
    (resetRound (scenarioAfterPoint y vy sl sr u)).balls.map
        (fun b => (b.ball_id, b.x, b.y, b.velocity_x, b.velocity_y)) =
      [("ball-2", (472 : ℝ), (262 : ℝ),
        if u < 1/2 then (-300 : ℝ) else 300,
        if u < 1/2 then (-99 : ℝ) else 99)] ∧
    (resetRound (scenarioAfterPoint y vy sl sr u)).scoreLeft = sl ∧
    (resetRound (scenarioAfterPoint y vy sl sr u)).scoreRight = sr + 1 ∧
    (resetRound (scenarioAfterPoint y vy sl sr u)).leftPaddle.y = 215 ∧
    (resetRound (scenarioAfterPoint y vy sl sr u)).rightPaddle.y = 215 := by
  have hseq : (scenarioRng u).seq 64 = u := by simp [scenarioRng]
  have hname : ("ball-" ++ toString (2 : ℕ)) = "ball-2" := rfl
  by_cases hu : u < 1/2
  · norm_num [resetRound, spawnBalls, spawnOne, Rng.choicePM, Rng.next, hseq, hname, hu,
      pushEvent, assocSet, assocGet, scenarioAfterPoint, scenarioPaddleL, scenarioPaddleR,
      RuntimeSettings.default, BallSettings.default, DisplaySettings.default,
      PaddleSettings.default, Value.toInt, Value.toRat]
  · norm_num [resetRound, spawnBalls, spawnOne, Rng.choicePM, Rng.next, hseq, hname, hu,
      pushEvent, assocSet, assocGet, scenarioAfterPoint, scenarioPaddleL, scenarioPaddleR,
      RuntimeSettings.default, BallSettings.default, DisplaySettings.default,
      PaddleSettings.default, Value.toInt, Value.toRat]

/-- C5 (amended): on a ball fully past the left edge the resolver publishes
PointScored for the right side and removes the ball (publishing BallRemoved);
if no balls remain and no side has reached the win score it resets the
round: both paddles recentered vertically, ball.count_on_reset new balls
spawned centered on screen with a random horizontal direction at the
configured ball speed (the spawn does not depend on the score, i.e. there is
no speed bias toward the side that is behind), and RoundReset published; no
reset occurs once a side has reached the win score. -/
theorem C5_scoring_spec (y vy : ℝ) (sl sr : ℕ) (u : ℚ)
    (hy1 : 0 < y) (hy2 : y + 16 < 540) :
    (max sl (sr + 1) < 10 →
      (handleCollisions (scenarioState y vy sl sr u)).events =
        [GameEvent.pointScored "right", GameEvent.ballRemoved "ball-1",
         GameEvent.ballSpawned "ball-2", GameEvent.roundReset] ∧
      (handleCollisions (scenarioState y vy sl sr u)).balls.map
          (fun b => (b.ball_id, b.x, b.y, b.velocity_x, b.velocity_y)) =
        [("ball-2", (472 : ℝ), (262 : ℝ),
          if u < 1/2 then (-300 : ℝ) else 300,
          if u < 1/2 then (-99 : ℝ) else 99)] ∧
      (handleCollisions (scenarioState y vy sl sr u)).scoreLeft = sl ∧
      (handleCollisions (scenarioState y vy sl sr u)).scoreRight = sr + 1 ∧
      (handleCollisions (scenarioState y vy sl sr u)).leftPaddle.y = 215 ∧
      (handleCollisions (scenarioState y vy sl sr u)).rightPaddle.y = 215) ∧
    (10 ≤ max sl (sr + 1) →
      (handleCollisions (scenarioState y vy sl sr u)).events =
        [GameEvent.pointScored "right", GameEvent.ballRemoved "ball-1"] ∧
      (handleCollisions (scenarioState y vy sl sr u)).balls = [] ∧
      (handleCollisions (scenarioState y vy sl sr u)).scoreLeft = sl ∧
      (handleCollisions (scenarioState y vy sl sr u)).scoreRight = sr + 1 ∧
      (handleCollisions (scenarioState y vy sl sr u)).leftPaddle.y = 100 ∧
      (handleCollisions (scenarioState y vy sl sr u)).rightPaddle.y = 330 ∧
      ¬ GameEvent.roundReset ∈ (handleCollisions (scenarioState y vy sl sr u)).events) := by
  have hEq := handleCollisions_scenario_eq y vy sl sr u hy1 hy2
  constructor
  · intro hnw
    have hg : ((max sl (sr + 1) : ℕ) : ℤ) < 10 := by exact_mod_cast hnw
    rw [hEq, if_pos hg]
    exact resetRound_afterPoint y vy sl sr u
  · intro hw
    have hg : ¬ ((max sl (sr + 1) : ℕ) : ℤ) < 10 := not_lt.mpr (by exact_mod_cast hw)
    rw [hEq, if_neg hg]
    refine ⟨rfl, rfl, rfl, rfl, ?_, ?_, ?_⟩
    · simp [scenarioAfterPoint, scenarioPaddleL]
    · simp [scenarioAfterPoint, scenarioPaddleR]
    · simp [scenarioAfterPoint]

theorem C5_scoring_spec_witness :
    ((handleCollisions (scenarioState 100 50 0 0 0)).events =
        [GameEvent.pointScored "right", GameEvent.ballRemoved "ball-1",
         GameEvent.ballSpawned "ball-2", GameEvent.roundReset] ∧
      (handleCollisions (scenarioState 100 50 0 0 0)).balls.map
          (fun b => (b.ball_id, b.x, b.y, b.velocity_x, b.velocity_y)) =
        [("ball-2", (472 : ℝ), (262 : ℝ),
          if (0 : ℚ) < 1/2 then (-300 : ℝ) else 300,
          if (0 : ℚ) < 1/2 then (-99 : ℝ) else 99)] ∧
      (handleCollisions (scenarioState 100 50 0 0 0)).scoreLeft = 0 ∧
      (handleCollisions (scenarioState 100 50 0 0 0)).scoreRight = 0 + 1 ∧
      (handleCollisions (scenarioState 100 50 0 0 0)).leftPaddle.y = 215 ∧
      (handleCollisions (scenarioState 100 50 0 0 0)).rightPaddle.y = 215) ∧
    ((handleCollisions (scenarioState 100 50 0 9 0)).events =
        [GameEvent.pointScored "right", GameEvent.ballRemoved "ball-1"] ∧
      (handleCollisions (scenarioState 100 50 0 9 0)).balls = [] ∧
      (handleCollisions (scenarioState 100 50 0 9 0)).scoreLeft = 0 ∧
      (handleCollisions (scenarioState 100 50 0 9 0)).scoreRight = 9 + 1 ∧
      (handleCollisions (scenarioState 100 50 0 9 0)).leftPaddle.y = 100 ∧
      (handleCollisions (scenarioState 100 50 0 9 0)).rightPaddle.y = 330 ∧
      ¬ GameEvent.roundReset ∈ (handleCollisions (scenarioState 100 50 0 9 0)).events) := by
  constructor
  · exact (C5_scoring_spec 100 50 0 0 0 (by norm_num) (by norm_num)).1 (by decide)
  · exact (C5_scoring_spec 100 50 0 9 0 (by norm_num) (by norm_num)).2 (by decide)

/-- C5 (counterexample to the bias clause): with identical random draws the
respawned ball is identical whether the left side or the right side is the
one behind — the spawn velocity is the configured ball speed with a random
direction, with no bias toward the side that is behind. -/
theorem C5_counterexample :
    (handleCollisions (scenarioState 100 50 0 5 0)).balls.map
        (fun b => (b.ball_id, b.x, b.y, b.velocity_x, b.velocity_y)) =
      [("ball-2", (472 : ℝ), (262 : ℝ), (-300 : ℝ), (-99 : ℝ))] ∧
    (handleCollisions (scenarioState 100 50 5 0 0)).balls.map
        (fun b => (b.ball_id, b.x, b.y, b.velocity_x, b.velocity_y)) =
      [("ball-2", (472 : ℝ), (262 : ℝ), (-300 : ℝ), (-99 : ℝ))] ∧
    (scenarioState (100 : ℝ) 50 0 5 0).scoreLeft <
      (scenarioState (100 : ℝ) 50 0 5 0).scoreRight ∧
    (scenarioState (100 : ℝ) 50 5 0 0).scoreRight <
      (scenarioState (100 : ℝ) 50 5 0 0).scoreLeft := by
  have hA := handleCollisions_scenario_eq 100 50 0 5 0 (by norm_num) (by norm_num)
  have hB := handleCollisions_scenario_eq 100 50 5 0 0 (by norm_num) (by norm_num)
  have hmA := (resetRound_afterPoint 100 50 0 5 0).2.1
  have hmB := (resetRound_afterPoint 100 50 5 0 0).2.1
  norm_num at hmA hmB
  refine ⟨?_, ?_, ?_, ?_⟩
  · rw [hA, if_pos (by decide)]
    exact hmA
  · rw [hB, if_pos (by decide)]
    exact hmB
  · simp [scenarioState]
  · simp [scenarioState]

end Pong
